import Mathlib

/-!
Flight schedule and journey management: data model and operations.

A shallow embedding of `oops_final_code_flight_schedule_and_journey.cpp`.

* Objects created with `new` live in per-class heaps (lists); a pointer is the index of
  the object in the heap of its class, so pointer equality is index equality.
* A deleted booking leaves an empty slot, so a dangling pointer never designates a
  later object.
* Dereferencing a pointer that designates no live object is undefined behaviour in the
  source; here it is the explicit outcome `Error.invalid_pointer`.
* Console output is recorded as a list of events. The menu banner and the input prompts
  are not recorded; the words read from standard input are the fields of a `Command`.
-/

namespace FlightSystem

/-- A pointer: the index of an object in the heap of its class. -/
abbrev Ptr := Nat

/-- Abnormal outcomes: the two exception classes of the source, and the dereference of
a pointer that designates no live object. -/
inductive Error where
  | BookingException
  | FlightNotFoundException
  | invalid_pointer
  deriving DecidableEq, Repr

/-- The virtual `what()` of the exception classes. `invalid_pointer` is not an exception
object and has no message; the empty text stands for that. -/
def Error.what : Error → String
  | .BookingException => "Booking exception occurred"
  | .FlightNotFoundException => "Flight not found"
  | .invalid_pointer => ""

/-- What the program does that is visible from outside: a call `observer->update(message)`
(whose body writes one line), or a line written to the console by other code. -/
inductive Event where
  | update (observer : Ptr) (message : String)
  | print (text : String)
  deriving DecidableEq, Repr

/-- The console line an event stands for. -/
def Event.text : Event → String
  | .update _ message => "Passenger received update: " ++ message
  | .print text => text

/-- Class `Passenger` (with the fields of its base `Person`). -/
structure Passenger where
  name : String
  email : String
  phone_number : String
  passport_number : String
  deriving DecidableEq, Repr

/-- The dynamic class of a flight object. -/
inductive FlightType where
  | Domestic
  | International
  deriving DecidableEq, Repr

/-- Class `Flight` together with the dynamic class of the object. -/
structure Flight where
  kind : FlightType
  flight_number : String
  origin : String
  destination : String
  departure_time : String
  arrival_time : String
  observers : List Ptr
  deriving DecidableEq, Repr

/-- Class `Booking`; `passenger` and `flight` are pointers. -/
structure Booking where
  booking_id : String
  passenger : Ptr
  flight : Ptr
  seat_number : String
  booking_status : String
  deriving DecidableEq, Repr

/-- Class `Itinerary`. -/
structure Itinerary where
  itinerary_id : String
  bookings : List Ptr
  deriving DecidableEq, Repr

/-- Class `Schedule`. -/
structure Schedule where
  schedule_id : String
  date : String
  flights : List Ptr
  deriving DecidableEq, Repr

/-- The idiom `v.erase(remove(v.begin(), v.end(), value), v.end())` on a vector of
pointers: one pass from the front that keeps, in place order, each element that does not
compare equal to `value`. -/
def erase_remove : List Ptr → Ptr → List Ptr
  | [], _ => []
  | x :: rest, value =>
    if x = value then erase_remove rest value else x :: erase_remove rest value

/-! ## Person / Passenger -/

def Passenger.get_details (p : Passenger) : List Event :=
  [.print ("Name: " ++ p.name ++ ", Email: " ++ p.email ++ ", Phone Number: " ++ p.phone_number)]

def Passenger.get_passenger_info (p : Passenger) : List Event :=
  p.get_details ++ [.print ("Passport Number: " ++ p.passport_number)]

def Passenger.set_email (p : Passenger) (new_email : String) : Passenger :=
  { p with email := new_email }

def Passenger.set_phone_number (p : Passenger) (new_phone_number : String) : Passenger :=
  { p with phone_number := new_phone_number }

/-- The virtual call `observer->update(message)`. Its only implementation is
`Passenger::update`, which writes one line and reads no field of the observer. -/
def IObserver.update (observer : Ptr) (message : String) : List Event :=
  [.update observer message]

/-! ## Flight -/

def Flight.get_flight_info (f : Flight) : List Event :=
  [.print ("Flight Number: " ++ f.flight_number ++ ", Origin: " ++ f.origin
    ++ ", Destination: " ++ f.destination ++ ", Departure Time: " ++ f.departure_time
    ++ ", Arrival Time: " ++ f.arrival_time)]

/-- Both overrides return `true`. -/
def Flight.check_availability (f : Flight) : Bool :=
  match f.kind with
  | .Domestic => true
  | .International => true

/-- The overrides return the literals `50.0` and `200.0`; both are exact, and no
arithmetic is done on them, so they are given as rationals. -/
def Flight.calculate_fare (f : Flight) : ℚ :=
  match f.kind with
  | .Domestic => 50
  | .International => 200

def Flight.attach (f : Flight) (observer : Ptr) : Flight :=
  { f with observers := f.observers ++ [observer] }

def Flight.detach (f : Flight) (observer : Ptr) : Flight :=
  { f with observers := erase_remove f.observers observer }

/-- The loop of `Flight::notify` over the observers still to be visited. -/
def Flight.notify_loop (message : String) : List Ptr → List Event → List Event
  | [], out => out
  | observer :: rest, out =>
    Flight.notify_loop message rest (out ++ IObserver.update observer message)

/-- The call `flight->notify(message)`: the flight after the call and the events of the call. -/
def Flight.notify (f : Flight) (message : String) : Flight × List Event :=
  (f, Flight.notify_loop message f.observers [])

/-- A call `FlightFactory::create_flight(...)` on a heap of flights: the heap after the
call and the pointer returned (`none` is `nullptr`). -/
def FlightFactory.create_flight (flight_heap : List Flight)
    (flight_type flight_number origin destination departure_time arrival_time : String) :
    List Flight × Option Ptr :=
  if flight_type = "Domestic" then
    (flight_heap ++ [⟨.Domestic, flight_number, origin, destination, departure_time,
      arrival_time, []⟩], some flight_heap.length)
  else if flight_type = "International" then
    (flight_heap ++ [⟨.International, flight_number, origin, destination, departure_time,
      arrival_time, []⟩], some flight_heap.length)
  else
    (flight_heap, none)

/-! ## Itinerary and Schedule -/

def Itinerary.add_booking (it : Itinerary) (booking : Ptr) : Itinerary :=
  { it with bookings := it.bookings ++ [booking] }

def Itinerary.remove_booking (it : Itinerary) (booking : Ptr) : Itinerary :=
  { it with bookings := erase_remove it.bookings booking }

def Schedule.add_flight (sc : Schedule) (flight : Ptr) : Schedule :=
  { sc with flights := sc.flights ++ [flight] }

def Schedule.remove_flight (sc : Schedule) (flight : Ptr) : Schedule :=
  { sc with flights := erase_remove sc.flights flight }

def Schedule.get_flights (sc : Schedule) : List Ptr :=
  sc.flights

/-! ## The heaps -/

/-- Dereference of a pointer into a heap of objects that are never deleted. -/
def deref {α : Type} (heap : List α) (p : Ptr) : Except Error α :=
  match heap[p]? with
  | some a => .ok a
  | none => .error .invalid_pointer

/-- Dereference of a pointer into the heap of bookings, where a slot is empty once its
booking has been deleted. -/
def deref_booking (heap : List (Option Booking)) (p : Ptr) : Except Error Booking :=
  match heap[p]? with
  | some (some b) => .ok b
  | _ => .error .invalid_pointer

/-- The loop of `find_flight_by_number` over the flights still to be visited. -/
def find_flight_loop (flight_heap : List Flight) (flight_number : String) :
    List Ptr → Except Error Ptr
  | [] => .error .FlightNotFoundException
  | flight :: rest =>
    match deref flight_heap flight with
    | .error e => .error e
    | .ok f =>
      if f.flight_number = flight_number then .ok flight
      else find_flight_loop flight_heap flight_number rest

def find_flight_by_number (flight_heap : List Flight) (schedule : Schedule)
    (flight_number : String) : Except Error Ptr :=
  find_flight_loop flight_heap flight_number schedule.get_flights

/-! ## The session: the objects and the local variables of `main` -/

/-- The heaps and the local variables of `main` that the menu loop uses. The single
`Itinerary` and the single `Schedule` object are reachable only through the locals
`itinerary` and `schedule`, so they are held by value. -/
structure Session where
  passenger_heap : List Passenger
  flight_heap : List Flight
  booking_heap : List (Option Booking)
  flight1 : Ptr
  flight2 : Ptr
  itinerary : Itinerary
  schedule : Schedule
  bookings : List Ptr
  passengers : List Ptr
  deriving DecidableEq, Repr

/-! ## Booking -/

def Booking.confirm_booking (s : Session) (this : Ptr) : Except Error (Session × List Event) := do
  let b ← deref_booking s.booking_heap this
  let s1 := { s with booking_heap :=
    s.booking_heap.set this (some { b with booking_status := "Confirmed" }) }
  let f ← deref s1.flight_heap b.flight
  let p ← deref s1.passenger_heap b.passenger
  let r := f.notify ("Booking confirmed for flight " ++ f.origin ++ " to " ++ f.destination
    ++ " for passenger " ++ p.name)
  pure ({ s1 with flight_heap := s1.flight_heap.set b.flight r.1 }, r.2)

def Booking.cancel_booking (s : Session) (this : Ptr) : Except Error (Session × List Event) := do
  let b ← deref_booking s.booking_heap this
  let s1 := { s with booking_heap :=
    s.booking_heap.set this (some { b with booking_status := "Cancelled" }) }
  let f ← deref s1.flight_heap b.flight
  let p ← deref s1.passenger_heap b.passenger
  let r := f.notify ("Booking cancelled for flight " ++ f.origin ++ " to " ++ f.destination
    ++ " for passenger " ++ p.name)
  pure ({ s1 with flight_heap := s1.flight_heap.set b.flight r.1 }, r.2)

def Booking.set_booking_status (s : Session) (this : Ptr) (status : String) :
    Except Error (Session × List Event) := do
  let b ← deref_booking s.booking_heap this
  let s1 := { s with booking_heap :=
    s.booking_heap.set this (some { b with booking_status := status }) }
  let f ← deref s1.flight_heap b.flight
  let p ← deref s1.passenger_heap b.passenger
  let r := f.notify ("Booking status changed for flight " ++ f.origin ++ " to "
    ++ f.destination ++ " for passenger " ++ p.name ++ " to " ++ status)
  pure ({ s1 with flight_heap := s1.flight_heap.set b.flight r.1 }, r.2)

def Booking.get_booking_info (s : Session) (this : Ptr) : Except Error (List Event) := do
  let b ← deref_booking s.booking_heap this
  let f ← deref s.flight_heap b.flight
  pure (.print ("Booking ID: " ++ b.booking_id ++ ", Seat Number: " ++ b.seat_number
    ++ ", Status: " ++ b.booking_status) :: f.get_flight_info)

/-! ## Display functions -/

/-- The loop of `Itinerary::get_itinerary_details`. -/
def itinerary_loop (s : Session) : List Ptr → Except Error (List Event)
  | [] => pure []
  | booking :: rest => do
    let out ← Booking.get_booking_info s booking
    let out2 ← itinerary_loop s rest
    pure (out ++ out2)

def Itinerary.get_itinerary_details (s : Session) : Except Error (List Event) := do
  let out ← itinerary_loop s s.itinerary.bookings
  pure (.print ("Itinerary ID: " ++ s.itinerary.itinerary_id) :: out)

/-- The loop of `Schedule::get_schedule_details`. -/
def schedule_loop (s : Session) : List Ptr → Except Error (List Event)
  | [] => pure []
  | flight :: rest => do
    let f ← deref s.flight_heap flight
    let out2 ← schedule_loop s rest
    pure (f.get_flight_info ++ out2)

def Schedule.get_schedule_details (s : Session) : Except Error (List Event) := do
  let out ← schedule_loop s s.schedule.flights
  pure (.print ("Schedule ID: " ++ s.schedule.schedule_id ++ ", Date: " ++ s.schedule.date)
    :: out)

/-- The loop of `display_passengers`. A passenger pointer of a booking is never null in
this embedding, so the test `if (passenger)` always succeeds. -/
def display_passengers_loop (s : Session) (flight : Ptr) : List Ptr → Except Error (List Event)
  | [] => pure []
  | booking :: rest => do
    let b ← deref_booking s.booking_heap booking
    if b.flight = flight then
      let p ← deref s.passenger_heap b.passenger
      let out2 ← display_passengers_loop s flight rest
      pure (p.get_passenger_info ++ out2)
    else
      display_passengers_loop s flight rest

def display_passengers (s : Session) (flight : Ptr) (bookings : List Ptr) :
    Except Error (List Event) := do
  let f ← deref s.flight_heap flight
  let out ← display_passengers_loop s flight bookings
  pure (.print ("Passengers on flight " ++ f.flight_number ++ ":") :: out)

/-- One of the two loops of `display_passengers_by_flight_type`: the flights whose
dynamic class is `kind`. -/
def display_type_loop (s : Session) (kind : FlightType) (bookings : List Ptr) :
    List Ptr → Except Error (List Event)
  | [] => pure []
  | flight :: rest => do
    let f ← deref s.flight_heap flight
    if f.kind = kind then
      let out ← display_passengers s flight bookings
      let out2 ← display_type_loop s kind bookings rest
      pure (out ++ out2)
    else
      display_type_loop s kind bookings rest

def display_passengers_by_flight_type (s : Session) (flights bookings : List Ptr) :
    Except Error (List Event) := do
  let out1 ← display_type_loop s .Domestic bookings flights
  let out2 ← display_type_loop s .International bookings flights
  pure (.print "Passengers on Domestic Flights:" :: out1
    ++ .print "Passengers on International Flights:" :: out2)

/-- The search for a passenger by passport number (the loops of menu options 4 and 7):
the first passenger of the list with that passport number, if any. -/
def find_passenger_loop (passenger_heap : List Passenger) (passport_number : String) :
    List Ptr → Except Error (Option Ptr)
  | [] => pure none
  | passenger :: rest => do
    let p ← deref passenger_heap passenger
    if p.passport_number = passport_number then pure (some passenger)
    else find_passenger_loop passenger_heap passport_number rest

def modify_passenger_info (s : Session) (passenger : Ptr) (choice : Int) (new_info : String) :
    Except Error (Session × List Event) := do
  let p ← deref s.passenger_heap passenger
  let out := [Event.print ("Modify Passenger Information for " ++ p.name),
    .print "1. Email", .print "2. Phone Number"]
  if choice = 1 then
    pure ({ s with passenger_heap := s.passenger_heap.set passenger (p.set_email new_info) }, out)
  else if choice = 2 then
    pure ({ s with passenger_heap :=
      s.passenger_heap.set passenger (p.set_phone_number new_info) }, out)
  else
    pure (s, out ++ [.print "Invalid choice"])

/-- The function `add_passenger`: the new object is placed at the end of the heap. -/
def add_passenger (s : Session) (name email phone_number passport_number : String) :
    Session × Ptr × List Event :=
  let p : Passenger := ⟨name, email, phone_number, passport_number⟩
  ({ s with passenger_heap := s.passenger_heap ++ [p] }, s.passenger_heap.length,
    [.print "Enter passenger details:"])

/-- The function `book_flight`; the pointer returned is `none` for `nullptr`. The seat
number and the booking id are read only when the flight is found. -/
def book_flight (s : Session) (passenger : Ptr) (flight_number seat_number booking_id : String) :
    Except Error (Session × Option Ptr × List Event) :=
  match find_flight_by_number s.flight_heap s.schedule flight_number with
  | .ok flight =>
    let b : Booking := ⟨booking_id, passenger, flight, seat_number, "Pending"⟩
    let new_booking := s.booking_heap.length
    let s1 := { s with booking_heap := s.booking_heap ++ [some b] }
    match deref s1.flight_heap flight with
    | .ok f =>
      .ok ({ s1 with flight_heap := s1.flight_heap.set flight (f.attach passenger) },
        some new_booking, [])
    | .error e => .error e
  | .error .FlightNotFoundException =>
    .ok (s, none, [.print Error.FlightNotFoundException.what])
  | .error e => .error e

/-- The loop of `view_passenger_details`. -/
def view_passenger_loop (s : Session) (passport_number : String) :
    List Ptr → Except Error (List Event)
  | [] => pure [.print "Passenger not found"]
  | passenger :: rest => do
    let p ← deref s.passenger_heap passenger
    if p.passport_number = passport_number then pure p.get_passenger_info
    else view_passenger_loop s passport_number rest

/-- The loop of `view_flight_details`. -/
def view_flight_loop (s : Session) (flight_number : String) :
    List Ptr → Except Error (List Event)
  | [] => pure [.print "Flight not found"]
  | flight :: rest => do
    let f ← deref s.flight_heap flight
    if f.flight_number = flight_number then pure f.get_flight_info
    else view_flight_loop s flight_number rest

/-! ## The menu loop of `main` -/

/-- One pass of the menu loop: the choice together with the words it reads. -/
inductive Command where
  | display_itinerary
  | display_schedule
  | display_by_flight_type
  | modify_passenger (passport_number : String) (choice : Int) (new_info : String)
  | notify_passengers
  | add_passenger (name email phone_number passport_number : String)
  | book_flight (passport_number flight_number seat_number booking_id : String)
  | cancel_booking (booking_id : String)
  | view_passenger (passport_number : String)
  | view_flight (flight_number : String)
  | exit
  | invalid
  deriving DecidableEq, Repr

/-- The loop of menu option 8 over the active bookings still to be visited. -/
def cancel_loop (s : Session) (booking_id : String) :
    List Ptr → Except Error (Session × List Event)
  | [] => pure (s, [.print "Booking not found"])
  | booking :: rest => do
    let b ← deref_booking s.booking_heap booking
    if b.booking_id = booking_id then
      let r ← Booking.cancel_booking s booking
      let s2 := { r.1 with itinerary := r.1.itinerary.remove_booking booking }
      let s3 := { s2 with bookings := erase_remove s2.bookings booking }
      let s4 := { s3 with booking_heap := s3.booking_heap.set booking none }
      pure (s4, r.2 ++ [.print "Booking cancelled successfully!"])
    else
      cancel_loop s booking_id rest

/-- The body of the `switch` in `main`. -/
def main_step (s : Session) : Command → Except Error (Session × List Event)
  | .display_itinerary => do
    let out ← Itinerary.get_itinerary_details s
    pure (s, out)
  | .display_schedule => do
    let out ← Schedule.get_schedule_details s
    pure (s, out)
  | .display_by_flight_type => do
    let out ← display_passengers_by_flight_type s s.schedule.get_flights s.bookings
    pure (s, out)
  | .modify_passenger passport_number choice new_info => do
    let found ← find_passenger_loop s.passenger_heap passport_number s.passengers
    match found with
    | some passenger => modify_passenger_info s passenger choice new_info
    | none => pure (s, [.print "Passenger not found"])
  | .notify_passengers => do
    let f1 ← deref s.flight_heap s.flight1
    let r1 := f1.notify "This is a notification for domestic flight."
    let s1 := { s with flight_heap := s.flight_heap.set s.flight1 r1.1 }
    let f2 ← deref s1.flight_heap s1.flight2
    let r2 := f2.notify "This is a notification for international flight."
    pure ({ s1 with flight_heap := s1.flight_heap.set s1.flight2 r2.1 }, r1.2 ++ r2.2)
  | .add_passenger name email phone_number passport_number =>
    -- `new` does not return a null pointer, so the test `if (new_passenger)` succeeds
    let r := add_passenger s name email phone_number passport_number
    pure ({ r.1 with passengers := r.1.passengers ++ [r.2.1] },
      r.2.2 ++ [.print "Passenger added successfully!"])
  | .book_flight passport_number flight_number seat_number booking_id => do
    let found ← find_passenger_loop s.passenger_heap passport_number s.passengers
    match found with
    | some passenger =>
      let r ← book_flight s passenger flight_number seat_number booking_id
      match r.2.1 with
      | some new_booking =>
        let s1 := { r.1 with bookings := r.1.bookings ++ [new_booking] }
        let s2 := { s1 with itinerary := s1.itinerary.add_booking new_booking }
        let c ← Booking.confirm_booking s2 new_booking
        pure (c.1, r.2.2 ++ c.2 ++ [.print "Flight booked successfully!"])
      | none => pure (r.1, r.2.2 ++ [.print "Failed to book flight."])
    | none => pure (s, [.print "Passenger not found."])
  | .cancel_booking booking_id => cancel_loop s booking_id s.bookings
  | .view_passenger passport_number => do
    let out ← view_passenger_loop s passport_number s.passengers
    pure (s, out)
  | .view_flight flight_number => do
    let out ← view_flight_loop s flight_number s.schedule.get_flights
    pure (s, out)
  | .exit => pure (s, [.print "Exiting..."])
  | .invalid => pure (s, [.print "Invalid choice. Please try again."])

/-- The statements of `main` before the menu loop. A null pointer returned by the
factory would be dereferenced by `attach`. -/
def main_init : Except Error Session := do
  let passenger_heap : List Passenger :=
    [⟨"John Doe", "john@example.com", "1234567890", "P12345"⟩,
     ⟨"Jane Smith", "jane@example.com", "0987654321", "P54321"⟩]
  let passenger1 : Ptr := 0
  let passenger2 : Ptr := 1
  let c1 := FlightFactory.create_flight [] "Domestic" "FL123" "New York" "Los Angeles"
    "2023-06-15 10:00" "2023-06-15 14:00"
  let c2 := FlightFactory.create_flight c1.1 "International" "FL456" "New York" "London"
    "2023-06-16 18:00" "2023-06-17 06:00"
  let booking_heap : List (Option Booking) := []
  match c1.2, c2.2 with
  | some flight1, some flight2 =>
    let booking1 : Ptr := booking_heap.length
    let booking_heap := booking_heap ++ [some ⟨"B123", passenger1, flight1, "12A", "Confirmed"⟩]
    let booking2 : Ptr := booking_heap.length
    let booking_heap := booking_heap ++ [some ⟨"B456", passenger2, flight2, "14B", "Confirmed"⟩]
    let flight_heap := c2.1
    let f1 ← deref flight_heap flight1
    let flight_heap := flight_heap.set flight1 (f1.attach passenger1)
    let f2 ← deref flight_heap flight2
    let flight_heap := flight_heap.set flight2 (f2.attach passenger2)
    let itinerary : Itinerary := ⟨"I123", []⟩
    let itinerary := itinerary.add_booking booking1
    let itinerary := itinerary.add_booking booking2
    let schedule : Schedule := ⟨"S123", "2023-06-15", []⟩
    let schedule := schedule.add_flight flight1
    let schedule := schedule.add_flight flight2
    pure ⟨passenger_heap, flight_heap, booking_heap, flight1, flight2, itinerary, schedule,
      [booking1, booking2], [passenger1, passenger2]⟩
  | _, _ => .error .invalid_pointer

/-- The session at the first pass of the menu loop (the value of `main_init`). -/
def initial_session : Session where
  passenger_heap :=
    [⟨"John Doe", "john@example.com", "1234567890", "P12345"⟩,
     ⟨"Jane Smith", "jane@example.com", "0987654321", "P54321"⟩]
  flight_heap :=
    [⟨.Domestic, "FL123", "New York", "Los Angeles", "2023-06-15 10:00", "2023-06-15 14:00", [0]⟩,
     ⟨.International, "FL456", "New York", "London", "2023-06-16 18:00", "2023-06-17 06:00", [1]⟩]
  booking_heap :=
    [some ⟨"B123", 0, 0, "12A", "Confirmed"⟩, some ⟨"B456", 1, 1, "14B", "Confirmed"⟩]
  flight1 := 0
  flight2 := 1
  itinerary := ⟨"I123", [0, 1]⟩
  schedule := ⟨"S123", "2023-06-15", [0, 1]⟩
  bookings := [0, 1]
  passengers := [0, 1]

/-- The menu loop `do ... while (choice != 11)` on the commands that standard input
holds: the loop ends after the pass that reads choice 11 (or when the input is used up),
and the events of the passes are collected. The deletions after the loop are not part of
it. -/
def main_run (s : Session) : List Command → Except Error (Session × List Event)
  | [] => pure (s, [])
  | c :: rest => do
    let r ← main_step s c
    if c = .exit then pure r
    else
      let r2 ← main_run r.1 rest
      pure (r2.1, r.2 ++ r2.2)

/-! ## Well-formed sessions -/

/-- The booking pointer designates a live booking whose flight and passenger are live. -/
def booking_ok (s : Session) (p : Ptr) : Bool :=
  match s.booking_heap[p]? with
  | some (some b) => decide (b.flight < s.flight_heap.length)
    && decide (b.passenger < s.passenger_heap.length)
  | _ => false

/-- Every pointer held by the session designates a live object. -/
def Session.wf (s : Session) : Prop :=
  (∀ p ∈ s.schedule.flights, p < s.flight_heap.length) ∧
  (∀ p ∈ s.passengers, p < s.passenger_heap.length) ∧
  (∀ p ∈ s.bookings, booking_ok s p = true) ∧
  (∀ p ∈ s.itinerary.bookings, booking_ok s p = true) ∧
  s.flight1 < s.flight_heap.length ∧ s.flight2 < s.flight_heap.length

instance (s : Session) : Decidable s.wf := by
  unfold Session.wf; infer_instance

/-- The messages that `observer` receives through `update` calls in a list of events,
in the order of the calls. -/
def deliveries_to (observer : Ptr) : List Event → List String
  | [] => []
  | .update o message :: rest =>
    if o = observer then message :: deliveries_to observer rest
    else deliveries_to observer rest
  | .print _ :: rest => deliveries_to observer rest

/-- The flight `FL123` as it stands in the initial session: passenger 0 is attached. -/
def flight_FL123 : Flight :=
  ⟨.Domestic, "FL123", "New York", "Los Angeles", "2023-06-15 10:00", "2023-06-15 14:00", [0]⟩

/-! ## Auxiliary facts -/

theorem erase_remove_eq_filter (xs : List Ptr) (value : Ptr) :
    erase_remove xs value = xs.filter (fun x => decide (x ≠ value)) := by
  induction xs with
  | nil => rfl
  | cons x rest ih =>
    by_cases h : x = value
    · simp [erase_remove, h, ih]
    · simp [erase_remove, h, ih]

theorem erase_remove_of_not_mem (xs : List Ptr) (value : Ptr) (h : value ∉ xs) :
    erase_remove xs value = xs := by
  rw [erase_remove_eq_filter, List.filter_eq_self]
  intro a ha
  have : a ≠ value := fun e => h (e ▸ ha)
  simpa using this

theorem not_mem_erase_remove (xs : List Ptr) (value : Ptr) :
    value ∉ erase_remove xs value := by
  rw [erase_remove_eq_filter]
  simp

theorem notify_loop_eq (message : String) (os : List Ptr) (out : List Event) :
    Flight.notify_loop message os out = out ++ os.map (fun o => Event.update o message) := by
  induction os generalizing out with
  | nil => simp [Flight.notify_loop]
  | cons o rest ih => simp [Flight.notify_loop, ih, IObserver.update]

theorem deref_of_lt {α : Type} (heap : List α) (p : Ptr) (h : p < heap.length) :
    deref heap p = .ok (heap.get ⟨p, h⟩) := by
  simp [deref, List.getElem?_eq_getElem h]

theorem find_flight_loop_ok_iff (flight_heap : List Flight) (n : String) (l : List Ptr)
    (hlive : ∀ p ∈ l, p < flight_heap.length) (p : Ptr) :
    find_flight_loop flight_heap n l = .ok p ↔
      ∃ pre post f, l = pre ++ p :: post ∧ flight_heap[p]? = some f ∧ f.flight_number = n ∧
        ∀ q ∈ pre, ∀ g, flight_heap[q]? = some g → g.flight_number ≠ n := by
  induction l with
  | nil => simp [find_flight_loop]
  | cons x rest ih =>
    have hx : x < flight_heap.length := hlive x (List.mem_cons_self _ _)
    have hrest : ∀ p ∈ rest, p < flight_heap.length :=
      fun q hq => hlive q (List.mem_cons_of_mem _ hq)
    have hget : flight_heap[x]? = some (flight_heap.get ⟨x, hx⟩) := by
      simp [List.getElem?_eq_getElem hx]
    rw [find_flight_loop, deref_of_lt flight_heap x hx]
    by_cases hn : (flight_heap.get ⟨x, hx⟩).flight_number = n
    · simp only [hn, if_true]
      constructor
      · intro h
        injection h with h
        subst h
        exact ⟨[], rest, _, rfl, hget, hn, by simp⟩
      · rintro ⟨pre, post, f, hl, _, _, hpre⟩
        cases pre with
        | nil =>
          simp at hl
          rw [hl.1]
        | cons q pre2 =>
          simp at hl
          exact absurd hn (hpre q (List.mem_cons_self _ _) _ (hl.1 ▸ hget))
    · simp only [hn, if_false]
      rw [ih hrest]
      constructor
      · rintro ⟨pre, post, f, hl, hf, hfn, hpre⟩
        refine ⟨x :: pre, post, f, by simp [hl], hf, hfn, ?_⟩
        intro q hq g hg
        rcases List.mem_cons.1 hq with rfl | hq
        · rw [hget] at hg
          injection hg with hg
          exact hg ▸ hn
        · exact hpre q hq g hg
      · rintro ⟨pre, post, f, hl, hf, hfn, hpre⟩
        cases pre with
        | nil =>
          simp at hl
          rw [← hl.1, hget] at hf
          injection hf with hf
          exact absurd (hf ▸ hfn) hn
        | cons q pre2 =>
          simp at hl
          exact ⟨pre2, post, f, hl.2, hf, hfn,
            fun r hr g hg => hpre r (List.mem_cons_of_mem _ hr) g hg⟩

theorem find_flight_loop_not_found_iff (flight_heap : List Flight) (n : String) (l : List Ptr)
    (hlive : ∀ p ∈ l, p < flight_heap.length) :
    find_flight_loop flight_heap n l = .error .FlightNotFoundException ↔
      ∀ q ∈ l, ∀ g, flight_heap[q]? = some g → g.flight_number ≠ n := by
  induction l with
  | nil => simp [find_flight_loop]
  | cons x rest ih =>
    have hx : x < flight_heap.length := hlive x (List.mem_cons_self _ _)
    have hrest : ∀ p ∈ rest, p < flight_heap.length :=
      fun q hq => hlive q (List.mem_cons_of_mem _ hq)
    have hget : flight_heap[x]? = some (flight_heap.get ⟨x, hx⟩) := by
      simp [List.getElem?_eq_getElem hx]
    rw [find_flight_loop, deref_of_lt flight_heap x hx]
    by_cases hn : (flight_heap.get ⟨x, hx⟩).flight_number = n
    · simp only [hn, if_true]
      constructor
      · intro h
        cases h
      · intro h
        exact absurd hn (h x (List.mem_cons_self _ _) _ hget)
    · simp only [hn, if_false]
      rw [ih hrest]
      constructor
      · intro h q hq g hg
        rcases List.mem_cons.1 hq with rfl | hq
        · rw [hget] at hg
          injection hg with hg
          exact hg ▸ hn
        · exact h q hq g hg
      · intro h q hq g hg
        exact h q (List.mem_cons_of_mem _ hq) g hg

theorem find_flight_loop_no_fault (flight_heap : List Flight) (n : String) (l : List Ptr)
    (hlive : ∀ p ∈ l, p < flight_heap.length) :
    (∃ p, find_flight_loop flight_heap n l = .ok p) ∨
      find_flight_loop flight_heap n l = .error .FlightNotFoundException := by
  induction l with
  | nil => right; rfl
  | cons x rest ih =>
    have hx : x < flight_heap.length := hlive x (List.mem_cons_self _ _)
    have hrest : ∀ p ∈ rest, p < flight_heap.length :=
      fun q hq => hlive q (List.mem_cons_of_mem _ hq)
    rw [find_flight_loop, deref_of_lt flight_heap x hx]
    by_cases hn : (flight_heap.get ⟨x, hx⟩).flight_number = n
    · left; exact ⟨x, by simp only [hn, if_true]⟩
    · simp only [hn, if_false]
      exact ih hrest

theorem main_init_eq : main_init = .ok initial_session := rfl

/-! ## Flight lookup -/

/-- C1: on a schedule whose flight pointers are live, `find_flight_by_number` returns
a pointer `p` exactly when `p` is the first entry of the schedule, in insertion order,
whose flight number equals `n`; it throws `FlightNotFoundException` exactly when no
flight of the schedule has number `n`; and it has no other outcome. -/
theorem find_flight_by_number_first_match (flight_heap : List Flight) (schedule : Schedule)
    (n : String) (hlive : ∀ p ∈ schedule.flights, p < flight_heap.length) :
    (∀ p, find_flight_by_number flight_heap schedule n = .ok p ↔
      ∃ pre post f, schedule.flights = pre ++ p :: post ∧ flight_heap[p]? = some f ∧
        f.flight_number = n ∧
        ∀ q ∈ pre, ∀ g, flight_heap[q]? = some g → g.flight_number ≠ n) ∧
    (find_flight_by_number flight_heap schedule n = .error .FlightNotFoundException ↔
      ∀ q ∈ schedule.flights, ∀ g, flight_heap[q]? = some g → g.flight_number ≠ n) ∧
    ((∃ p, find_flight_by_number flight_heap schedule n = .ok p) ∨
      find_flight_by_number flight_heap schedule n = .error .FlightNotFoundException) :=
  ⟨fun p => find_flight_loop_ok_iff flight_heap n schedule.flights hlive p,
   find_flight_loop_not_found_iff flight_heap n schedule.flights hlive,
   find_flight_loop_no_fault flight_heap n schedule.flights hlive⟩

/-- C1, scenario: in the initial schedule (FL123 domestic, then FL456 international)
the lookup of "FL123" returns the domestic flight, whose fare is 50, and the lookup of
"FL999" throws `FlightNotFoundException`. -/
theorem find_flight_by_number_first_match_witness :
    (∀ p ∈ initial_session.schedule.flights, p < initial_session.flight_heap.length) ∧
    find_flight_by_number initial_session.flight_heap initial_session.schedule "FL123" = .ok 0 ∧
    (initial_session.flight_heap[0]?).map (fun f => (f.kind, f.calculate_fare))
      = some (FlightType.Domestic, 50) ∧
    find_flight_by_number initial_session.flight_heap initial_session.schedule "FL999"
      = .error .FlightNotFoundException := by
  have hlive : ∀ p ∈ initial_session.schedule.flights, p < initial_session.flight_heap.length := by
    decide
  refine ⟨hlive, ?_, rfl, ?_⟩
  · exact ((find_flight_by_number_first_match initial_session.flight_heap
      initial_session.schedule "FL123" hlive).1 0).2
      ⟨[], [1], _, rfl, rfl, rfl, by simp⟩
  · exact (find_flight_by_number_first_match initial_session.flight_heap
      initial_session.schedule "FL999" hlive).2.1.2 (by
        intro q hq g hg
        have hq2 : q = 0 ∨ q = 1 := by simpa [initial_session] using hq
        rcases hq2 with rfl | rfl
        · simp [initial_session] at hg
          subst hg
          decide
        · simp [initial_session] at hg
          subst hg
          decide)

/-! ## Observers -/

theorem deliveries_to_map (observer : Ptr) (message : String) (os : List Ptr) :
    deliveries_to observer (os.map (fun o => Event.update o message))
      = List.replicate (os.count observer) message := by
  induction os with
  | nil => rfl
  | cons o rest ih =>
    by_cases h : o = observer
    · subst h
      simp [deliveries_to, ih, List.replicate_succ]
    · have h2 : ¬ (o == observer) = true := by simpa using h
      simp [deliveries_to, ih, h, List.count_cons, h2]

theorem notify_eq (f : Flight) (message : String) :
    f.notify message = (f, f.observers.map (fun o => Event.update o message)) := by
  simp [Flight.notify, notify_loop_eq]

/-- C2, as the code has it: after `attach(P)`, `notify(m)` delivers `update(m)` to `P`
once for the new entry and once more for each entry `P` already had in the observer
list; `P` receives nothing else, and exactly one `update(m)` when it was not attached
before. -/
theorem attach_notify_deliveries (F : Flight) (P : Ptr) (m : String) :
    deliveries_to P ((F.attach P).notify m).2 = List.replicate (F.observers.count P + 1) m ∧
    (P ∉ F.observers → deliveries_to P ((F.attach P).notify m).2 = [m]) := by
  have h : deliveries_to P ((F.attach P).notify m).2
      = List.replicate (F.observers.count P + 1) m := by
    rw [notify_eq]
    simp only [Flight.attach]
    rw [deliveries_to_map]
    simp
  refine ⟨h, fun hP => ?_⟩
  rw [h, List.count_eq_zero_of_not_mem hP]
  rfl

/-- C2, witness: passenger 7 is not attached to FL123, so it receives "x" once. -/
theorem attach_notify_deliveries_witness :
    7 ∉ flight_FL123.observers ∧
    deliveries_to 7 ((flight_FL123.attach 7).notify "x").2 = ["x"] :=
  ⟨by decide, (attach_notify_deliveries flight_FL123 7 "x").2 (by decide)⟩

/-- C2, counterexample: passenger 0 is already attached to FL123; after another
`attach(0)`, `notify("x")` delivers `update("x")` to passenger 0 twice. The booking
workflow does this: booking FL123 again for passenger P12345 from the initial session
delivers the confirmation to passenger 0 twice. -/
theorem attach_notify_delivers_twice :
    deliveries_to 0 ((flight_FL123.attach 0).notify "x").2 = ["x", "x"] ∧
    deliveries_to 0 ((flight_FL123.attach 0).notify "x").2 ≠ ["x"] ∧
    (main_step initial_session (.book_flight "P12345" "FL123" "1A" "B9")).map
        (fun r => deliveries_to 0 r.2)
      = .ok ["Booking confirmed for flight New York to Los Angeles for passenger John Doe",
             "Booking confirmed for flight New York to Los Angeles for passenger John Doe"] := by
  refine ⟨rfl, ?_, rfl⟩
  have h : deliveries_to 0 ((flight_FL123.attach 0).notify "x").2 = ["x", "x"] := rfl
  rw [h]
  decide

/-- C3: after `detach(P)` the observer list is the old one without any entry equal to
`P`, the other entries in their order; a following `notify(m)` delivers nothing to `P`
and to every other observer what it would have received; when `P` is not attached,
`detach(P)` leaves the flight as it is. -/
theorem detach_removes_observer (F : Flight) (P : Ptr) (m : String) :
    (F.detach P).observers = F.observers.filter (fun o => decide (o ≠ P)) ∧
    P ∉ (F.detach P).observers ∧
    deliveries_to P ((F.detach P).notify m).2 = [] ∧
    (∀ Q, Q ≠ P → deliveries_to Q ((F.detach P).notify m).2 = deliveries_to Q (F.notify m).2) ∧
    (P ∉ F.observers → F.detach P = F) := by
  refine ⟨erase_remove_eq_filter _ _, not_mem_erase_remove _ _, ?_, ?_, ?_⟩
  · rw [notify_eq, deliveries_to_map]
    simp only [Flight.detach]
    rw [List.count_eq_zero_of_not_mem (not_mem_erase_remove _ _)]
    rfl
  · intro Q hQ
    rw [notify_eq, notify_eq, deliveries_to_map, deliveries_to_map]
    simp only [Flight.detach]
    rw [erase_remove_eq_filter, List.count_filter]
    simpa using hQ
  · intro hP
    simp only [Flight.detach]
    rw [erase_remove_of_not_mem _ _ hP]

/-- C3, witness: detaching passenger 7, who is not attached, leaves FL123 unchanged, and
detaching passenger 0 leaves passenger 0 without deliveries. -/
theorem detach_removes_observer_witness :
    7 ∉ flight_FL123.observers ∧ flight_FL123.detach 7 = flight_FL123 ∧
    deliveries_to 0 ((flight_FL123.detach 0).notify "x").2 = [] :=
  ⟨by decide, (detach_removes_observer flight_FL123 7 "x").2.2.2.2 (by decide),
    (detach_removes_observer flight_FL123 0 "x").2.2.1⟩

theorem foldl_attach_observers (os : List Ptr) (F : Flight) :
    (os.foldl Flight.attach F).observers = F.observers ++ os := by
  induction os generalizing F with
  | nil => simp
  | cons o rest ih => simp [ih, Flight.attach]

/-- C9: `notify(m)` leaves the flight as it is and calls `update(m)` once per entry of
the observer list, in list order, and makes no other call or output; since `attach`
appends, after attaching `os` one by one the calls go to the old entries and then to
`os`, in the order of attachment. -/
theorem notify_delivers_in_attachment_order (F : Flight) (m : String) :
    (F.notify m).1 = F ∧
    (F.notify m).2 = F.observers.map (fun o => Event.update o m) ∧
    (∀ P, (F.attach P).observers = F.observers ++ [P]) ∧
    (∀ os : List Ptr, ((os.foldl Flight.attach F).notify m).2
      = (F.observers ++ os).map (fun o => Event.update o m)) := by
  refine ⟨rfl, ?_, fun _ => rfl, fun os => ?_⟩
  · rw [notify_eq]
  · rw [notify_eq, foldl_attach_observers]

/-! ## Fares and the factory -/

/-- C8: `calculate_fare` is 50 on a domestic flight and 200 on an international one, and
two flights of the same class have the same fare whatever their other fields are. -/
theorem calculate_fare_by_kind (f : Flight) :
    (f.kind = .Domestic → f.calculate_fare = 50) ∧
    (f.kind = .International → f.calculate_fare = 200) ∧
    (∀ g : Flight, g.kind = f.kind → g.calculate_fare = f.calculate_fare) := by
  refine ⟨fun h => ?_, fun h => ?_, fun g h => ?_⟩
  · simp [Flight.calculate_fare, h]
  · simp [Flight.calculate_fare, h]
  · simp [Flight.calculate_fare, h]

/-- C8, witness: FL123 is domestic and its fare is 50. -/
theorem calculate_fare_by_kind_witness :
    flight_FL123.kind = .Domestic ∧ flight_FL123.calculate_fare = 50 :=
  ⟨rfl, (calculate_fare_by_kind flight_FL123).1 rfl⟩

/-- C7: with the tag "Domestic" (resp. "International") `create_flight` allocates one new
flight of that class with the given number, origin, destination and times and no
observer, and returns the pointer to it, the older flights staying as they were; with
any other tag it returns the null pointer and allocates nothing. It has no exceptional
outcome. -/
theorem create_flight_by_tag (flight_heap : List Flight)
    (tag number origin destination departure arrival : String) :
    (tag = "Domestic" →
      FlightFactory.create_flight flight_heap tag number origin destination departure arrival
        = (flight_heap ++ [⟨.Domestic, number, origin, destination, departure, arrival, []⟩],
            some flight_heap.length)) ∧
    (tag = "International" →
      FlightFactory.create_flight flight_heap tag number origin destination departure arrival
        = (flight_heap ++ [⟨.International, number, origin, destination, departure, arrival, []⟩],
            some flight_heap.length)) ∧
    (tag ≠ "Domestic" → tag ≠ "International" →
      FlightFactory.create_flight flight_heap tag number origin destination departure arrival
        = (flight_heap, none)) ∧
    (∀ p, (FlightFactory.create_flight flight_heap tag number origin destination departure
        arrival).2 = some p →
      ∃ f, deref (FlightFactory.create_flight flight_heap tag number origin destination
          departure arrival).1 p = .ok f ∧
        f.flight_number = number ∧ f.origin = origin ∧ f.destination = destination ∧
        f.departure_time = departure ∧ f.arrival_time = arrival ∧ f.observers = [] ∧
        (f.kind = .Domestic ↔ tag = "Domestic") ∧
        (f.kind = .International ↔ tag = "International")) := by
  refine ⟨fun h => ?_, fun h => ?_, fun h1 h2 => ?_, fun p hp => ?_⟩
  · simp [FlightFactory.create_flight, h]
  · subst h
    simp [FlightFactory.create_flight]
  · simp [FlightFactory.create_flight, h1, h2]
  · by_cases h1 : tag = "Domestic"
    · subst h1
      simp [FlightFactory.create_flight] at hp ⊢
      subst hp
      simp [deref]
    · by_cases h2 : tag = "International"
      · subst h2
        simp [FlightFactory.create_flight] at hp ⊢
        subst hp
        simp [deref]
      · simp [FlightFactory.create_flight, h1, h2] at hp

/-- C7, witness: the three kinds of tag on the empty heap. -/
theorem create_flight_by_tag_witness :
    FlightFactory.create_flight [] "Domestic" "FL123" "New York" "Los Angeles" "t0" "t1"
      = ([⟨.Domestic, "FL123", "New York", "Los Angeles", "t0", "t1", []⟩], some 0) ∧
    FlightFactory.create_flight [] "International" "FL456" "New York" "London" "t0" "t1"
      = ([⟨.International, "FL456", "New York", "London", "t0", "t1", []⟩], some 0) ∧
    FlightFactory.create_flight [] "domestic" "FL123" "New York" "Los Angeles" "t0" "t1"
      = ([], none) :=
  ⟨(create_flight_by_tag [] "Domestic" "FL123" "New York" "Los Angeles" "t0" "t1").1 rfl,
   (create_flight_by_tag [] "International" "FL456" "New York" "London" "t0" "t1").2.1 rfl,
   (create_flight_by_tag [] "domestic" "FL123" "New York" "Los Angeles" "t0" "t1").2.2.1
     (by decide) (by decide)⟩

/-! ## Itinerary and Schedule as collections -/

/-- C10: `add_booking` and `add_flight` put the new pointer at the end of the sequence;
`remove_booking` and `remove_flight` delete every entry equal to the given pointer and
keep the others in their order; removing a pointer that is not in the sequence changes
nothing. -/
theorem collections_append_remove (it : Itinerary) (sc : Schedule) (x : Ptr) :
    (it.add_booking x).bookings = it.bookings ++ [x] ∧
    (it.add_booking x).itinerary_id = it.itinerary_id ∧
    (it.remove_booking x).bookings = it.bookings.filter (fun b => decide (b ≠ x)) ∧
    (it.remove_booking x).itinerary_id = it.itinerary_id ∧
    (x ∉ it.bookings → it.remove_booking x = it) ∧
    (sc.add_flight x).flights = sc.flights ++ [x] ∧
    ((sc.add_flight x).schedule_id = sc.schedule_id ∧ (sc.add_flight x).date = sc.date) ∧
    (sc.remove_flight x).flights = sc.flights.filter (fun f => decide (f ≠ x)) ∧
    ((sc.remove_flight x).schedule_id = sc.schedule_id ∧ (sc.remove_flight x).date = sc.date) ∧
    (x ∉ sc.flights → sc.remove_flight x = sc) := by
  refine ⟨rfl, rfl, erase_remove_eq_filter _ _, rfl, fun h => ?_, rfl, ⟨rfl, rfl⟩,
    erase_remove_eq_filter _ _, ⟨rfl, rfl⟩, fun h => ?_⟩
  · simp only [Itinerary.remove_booking]
    rw [erase_remove_of_not_mem _ _ h]
  · simp only [Schedule.remove_flight]
    rw [erase_remove_of_not_mem _ _ h]

/-- C10, witness: on the initial itinerary and schedule, removing the absent pointer 5
changes nothing, and removing pointer 0 from a list that holds it twice deletes both. -/
theorem collections_append_remove_witness :
    5 ∉ initial_session.itinerary.bookings ∧ 5 ∉ initial_session.schedule.flights ∧
    initial_session.itinerary.remove_booking 5 = initial_session.itinerary ∧
    initial_session.schedule.remove_flight 5 = initial_session.schedule ∧
    ((⟨"I", [0, 1, 0, 2]⟩ : Itinerary).remove_booking 0).bookings = [1, 2] := by
  refine ⟨by decide, by decide, ?_, ?_, ?_⟩
  · exact (collections_append_remove initial_session.itinerary initial_session.schedule 5).2.2.2.2.1
      (by decide)
  · exact (collections_append_remove initial_session.itinerary
      initial_session.schedule 5).2.2.2.2.2.2.2.2.2 (by decide)
  · rw [(collections_append_remove ⟨"I", [0, 1, 0, 2]⟩ initial_session.schedule 0).2.2.1]
    decide

/-! ## Bookings -/

theorem set_of_getElem? {α : Type} (l : List α) (i : Nat) (a : α) (h : l[i]? = some a) :
    l.set i a = l := by
  apply List.ext_getElem?
  intro j
  by_cases hj : i = j
  · subst hj
    rw [List.getElem?_set_self (by
      rcases List.getElem?_eq_some_iff.1 h with ⟨hl, _⟩
      exact hl), h]
  · rw [List.getElem?_set_ne hj]

theorem confirm_booking_eq (s : Session) (this : Ptr) (b : Booking) (f : Flight) (p : Passenger)
    (hb : s.booking_heap[this]? = some (some b)) (hf : s.flight_heap[b.flight]? = some f)
    (hp : s.passenger_heap[b.passenger]? = some p) :
    Booking.confirm_booking s this
      = .ok ({ s with booking_heap :=
                s.booking_heap.set this (some { b with booking_status := "Confirmed" }) },
             f.observers.map (fun o => Event.update o ("Booking confirmed for flight "
               ++ f.origin ++ " to " ++ f.destination ++ " for passenger " ++ p.name))) := by
  simp [Booking.confirm_booking, deref_booking, hb, deref, hf, hp, bind, Except.bind, pure,
    Except.pure, notify_eq, set_of_getElem? _ _ _ hf]

theorem cancel_booking_eq (s : Session) (this : Ptr) (b : Booking) (f : Flight) (p : Passenger)
    (hb : s.booking_heap[this]? = some (some b)) (hf : s.flight_heap[b.flight]? = some f)
    (hp : s.passenger_heap[b.passenger]? = some p) :
    Booking.cancel_booking s this
      = .ok ({ s with booking_heap :=
                s.booking_heap.set this (some { b with booking_status := "Cancelled" }) },
             f.observers.map (fun o => Event.update o ("Booking cancelled for flight "
               ++ f.origin ++ " to " ++ f.destination ++ " for passenger " ++ p.name))) := by
  simp [Booking.cancel_booking, deref_booking, hb, deref, hf, hp, bind, Except.bind, pure,
    Except.pure, notify_eq, set_of_getElem? _ _ _ hf]

theorem booking_ok_elim (s : Session) (p : Ptr) (h : booking_ok s p = true) :
    ∃ b f pa, s.booking_heap[p]? = some (some b) ∧ s.flight_heap[b.flight]? = some f ∧
      s.passenger_heap[b.passenger]? = some pa := by
  unfold booking_ok at h
  split at h
  · next b hb =>
    simp only [Bool.and_eq_true, decide_eq_true_eq] at h
    exact ⟨b, _, _, hb, List.getElem?_eq_getElem h.1, List.getElem?_eq_getElem h.2⟩
  · cases h

/-- C5: on a live booking `b` whose flight `f` and passenger `p` are live,
`confirm_booking` returns normally; afterwards the booking has status "Confirmed" and
its id, passenger, flight and seat are as before; every other object of the session is
as before; the events are those of one `notify` on the flight, namely one `update` with
the confirmation message per entry of the flight's observer list, in list order, so an
observer attached `k` times receives the message `k` times. -/
theorem confirm_booking_confirms_and_notifies (s : Session) (this : Ptr) (b : Booking)
    (f : Flight) (p : Passenger)
    (hb : s.booking_heap[this]? = some (some b)) (hf : s.flight_heap[b.flight]? = some f)
    (hp : s.passenger_heap[b.passenger]? = some p) :
    ∃ s2 out, Booking.confirm_booking s this = .ok (s2, out) ∧
      s2.booking_heap[this]?
        = some (some ⟨b.booking_id, b.passenger, b.flight, b.seat_number, "Confirmed"⟩) ∧
      (∀ q, q ≠ this → s2.booking_heap[q]? = s.booking_heap[q]?) ∧
      s2 = { s with booking_heap := s2.booking_heap } ∧
      out = (f.notify ("Booking confirmed for flight " ++ f.origin ++ " to " ++ f.destination
        ++ " for passenger " ++ p.name)).2 ∧
      out = f.observers.map (fun o => Event.update o ("Booking confirmed for flight "
        ++ f.origin ++ " to " ++ f.destination ++ " for passenger " ++ p.name)) ∧
      (∀ P, deliveries_to P out = List.replicate (f.observers.count P)
        ("Booking confirmed for flight " ++ f.origin ++ " to " ++ f.destination
          ++ " for passenger " ++ p.name)) := by
  have hlt : this < s.booking_heap.length := (List.getElem?_eq_some_iff.1 hb).1
  refine ⟨_, _, confirm_booking_eq s this b f p hb hf hp, ?_, ?_, rfl, ?_, rfl, ?_⟩
  · simp [List.getElem?_set_self hlt]
  · intro q hq
    simp [List.getElem?_set_ne (Ne.symm hq)]
  · rw [notify_eq]
  · intro P
    rw [deliveries_to_map]

/-- C5, witness: confirming booking B456 (pointer 1) of the initial session, whose
status is already "Confirmed", delivers one confirmation to passenger 1. -/
theorem confirm_booking_confirms_and_notifies_witness :
    ∃ s2 out, Booking.confirm_booking initial_session 1 = .ok (s2, out) ∧
      s2.booking_heap[1]? = some (some ⟨"B456", 1, 1, "14B", "Confirmed"⟩) ∧
      out = [Event.update 1
        "Booking confirmed for flight New York to London for passenger Jane Smith"] := by
  obtain ⟨s2, out, h1, h2, _, _, _, h6, _⟩ :=
    confirm_booking_confirms_and_notifies initial_session 1
      ⟨"B456", 1, 1, "14B", "Confirmed"⟩
      ⟨.International, "FL456", "New York", "London", "2023-06-16 18:00", "2023-06-17 06:00", [1]⟩
      ⟨"Jane Smith", "jane@example.com", "0987654321", "P54321"⟩ rfl rfl rfl
  exact ⟨s2, out, h1, h2, by rw [h6]; rfl⟩

/-! ## The booking workflow and a flight that is not in the schedule -/

theorem find_passenger_loop_no_fault (passenger_heap : List Passenger) (passport : String)
    (l : List Ptr) (hlive : ∀ p ∈ l, p < passenger_heap.length) :
    ∃ r, find_passenger_loop passenger_heap passport l = .ok r := by
  induction l with
  | nil => exact ⟨none, rfl⟩
  | cons x rest ih =>
    have hx : x < passenger_heap.length := hlive x (List.mem_cons_self _ _)
    have hrest : ∀ p ∈ rest, p < passenger_heap.length :=
      fun q hq => hlive q (List.mem_cons_of_mem _ hq)
    rw [find_passenger_loop, deref_of_lt passenger_heap x hx]
    by_cases hn : (passenger_heap.get ⟨x, hx⟩).passport_number = passport
    · exact ⟨some x, by simp only [bind, Except.bind, hn, if_true, pure, Except.pure]⟩
    · obtain ⟨r, hr⟩ := ih hrest
      exact ⟨r, by simp only [bind, Except.bind, hn, if_false, hr]⟩

theorem book_flight_not_found_eq (s : Session) (passenger : Ptr)
    (flight_number seat_number booking_id : String)
    (hlive : ∀ p ∈ s.schedule.flights, p < s.flight_heap.length)
    (hnone : ∀ q ∈ s.schedule.flights, ∀ g, s.flight_heap[q]? = some g →
      g.flight_number ≠ flight_number) :
    book_flight s passenger flight_number seat_number booking_id
      = .ok (s, none, [.print "Flight not found"]) := by
  have h : find_flight_by_number s.flight_heap s.schedule flight_number
      = .error .FlightNotFoundException :=
    (find_flight_loop_not_found_iff s.flight_heap flight_number s.schedule.flights hlive).2 hnone
  simp [book_flight, h, Error.what]

/-- C6: in a well-formed session, when no flight of the schedule has the flight number
entered, `book_flight` catches the exception, writes "Flight not found", returns the
null pointer and leaves the session as it is; menu option 7 then returns normally with
the session unchanged (no observer attached, no booking allocated, nothing added to the
active bookings or to the itinerary), after writing "Failed to book flight." (or
"Passenger not found." when the passport number matches no passenger). -/
theorem book_flight_unknown_flight_leaves_state (s : Session)
    (passport_number flight_number seat_number booking_id : String) (hwf : s.wf)
    (hnone : ∀ q ∈ s.schedule.flights, ∀ g, s.flight_heap[q]? = some g →
      g.flight_number ≠ flight_number) :
    find_flight_by_number s.flight_heap s.schedule flight_number
      = .error .FlightNotFoundException ∧
    (∀ passenger, book_flight s passenger flight_number seat_number booking_id
      = .ok (s, none, [.print "Flight not found"])) ∧
    (main_step s (.book_flight passport_number flight_number seat_number booking_id)
        = .ok (s, [.print "Flight not found", .print "Failed to book flight."]) ∨
      main_step s (.book_flight passport_number flight_number seat_number booking_id)
        = .ok (s, [.print "Passenger not found."])) := by
  refine ⟨(find_flight_loop_not_found_iff s.flight_heap flight_number s.schedule.flights
    hwf.1).2 hnone, fun passenger => book_flight_not_found_eq s passenger flight_number
    seat_number booking_id hwf.1 hnone, ?_⟩
  obtain ⟨r, hr⟩ := find_passenger_loop_no_fault s.passenger_heap passport_number
    s.passengers hwf.2.1
  cases r with
  | none =>
    right
    simp [main_step, hr, bind, Except.bind, pure, Except.pure]
  | some passenger =>
    left
    simp [main_step, hr, bind, Except.bind, pure, Except.pure,
      book_flight_not_found_eq s passenger flight_number seat_number booking_id hwf.1 hnone]

/-- C6, witness: booking the unknown flight FL999 for passenger P12345 in the initial
session leaves the session unchanged. -/
theorem book_flight_unknown_flight_leaves_state_witness :
    initial_session.wf ∧
    book_flight initial_session 0 "FL999" "1A" "B9"
      = .ok (initial_session, none, [.print "Flight not found"]) ∧
    main_step initial_session (.book_flight "P12345" "FL999" "1A" "B9")
      = .ok (initial_session, [.print "Flight not found", .print "Failed to book flight."]) := by
  have hwf : initial_session.wf := by decide
  have hnone : ∀ q ∈ initial_session.schedule.flights, ∀ g,
      initial_session.flight_heap[q]? = some g → g.flight_number ≠ "FL999" := by
    intro q hq g hg
    have hq2 : q = 0 ∨ q = 1 := by simpa [initial_session] using hq
    rcases hq2 with rfl | rfl
    · simp [initial_session] at hg
      subst hg
      decide
    · simp [initial_session] at hg
      subst hg
      decide
  have h := book_flight_unknown_flight_leaves_state initial_session "P12345" "FL999" "1A" "B9"
    hwf hnone
  exact ⟨hwf, h.2.1 0, rfl⟩

/-! ## Cancelling a booking -/

theorem cancel_loop_first_match (s : Session) (booking_id : String) (l : List Ptr)
    (hok : ∀ p ∈ l, booking_ok s p = true)
    (hex : ∃ p ∈ l, ∃ b, s.booking_heap[p]? = some (some b) ∧ b.booking_id = booking_id) :
    ∃ pre post p b f pa, l = pre ++ p :: post ∧
      s.booking_heap[p]? = some (some b) ∧ b.booking_id = booking_id ∧
      (∀ q ∈ pre, ∀ c, s.booking_heap[q]? = some (some c) → c.booking_id ≠ booking_id) ∧
      s.flight_heap[b.flight]? = some f ∧ s.passenger_heap[b.passenger]? = some pa ∧
      cancel_loop s booking_id l
        = .ok ({ s with
                  booking_heap := s.booking_heap.set p none
                  itinerary := s.itinerary.remove_booking p
                  bookings := erase_remove s.bookings p },
               f.observers.map (fun o => Event.update o ("Booking cancelled for flight "
                 ++ f.origin ++ " to " ++ f.destination ++ " for passenger " ++ pa.name))
               ++ [.print "Booking cancelled successfully!"]) := by
  induction l with
  | nil =>
    obtain ⟨p, hp, _⟩ := hex
    cases hp
  | cons x rest ih =>
    obtain ⟨b, f, pa, hb, hf, hpa⟩ := booking_ok_elim s x (hok x (List.mem_cons_self _ _))
    by_cases hid : b.booking_id = booking_id
    · refine ⟨[], rest, x, b, f, pa, rfl, hb, hid, by simp, hf, hpa, ?_⟩
      simp [cancel_loop, deref_booking, hb, hid, bind, Except.bind, pure, Except.pure,
        cancel_booking_eq s x b f pa hb hf hpa, List.set_set]
    · have hex2 : ∃ p ∈ rest, ∃ c, s.booking_heap[p]? = some (some c) ∧
          c.booking_id = booking_id := by
        obtain ⟨p, hp, c, hc, hcid⟩ := hex
        rcases List.mem_cons.1 hp with rfl | hp
        · rw [hb] at hc
          injection hc with hc
          injection hc with hc
          exact absurd (hc ▸ hcid) hid
        · exact ⟨p, hp, c, hc, hcid⟩
      obtain ⟨pre, post, p, c, g, pb, hl, hc, hcid, hpre, hg, hpb, hrun⟩ :=
        ih (fun q hq => hok q (List.mem_cons_of_mem _ hq)) hex2
      refine ⟨x :: pre, post, p, c, g, pb, by simp [hl], hc, hcid, ?_, hg, hpb, ?_⟩
      · intro q hq d hd
        rcases List.mem_cons.1 hq with rfl | hq
        · rw [hb] at hd
          injection hd with hd
          injection hd with hd
          exact hd ▸ hid
        · exact hpre q hq d hd
      · rw [← hrun]
        simp [cancel_loop, deref_booking, hb, hid, bind, Except.bind]

/-- C4: in a well-formed session, when the booking id entered matches a booking of the
active collection, menu option 8 returns normally and cancels the first booking `p` of
the active collection with that id: afterwards `p` is neither in the itinerary nor in
the active collection, both lists hold their other entries in the original order, and
the booking object is deleted. -/
theorem cancel_removes_booking_from_both (s : Session) (booking_id : String) (hwf : s.wf)
    (hex : ∃ p ∈ s.bookings, ∃ b, s.booking_heap[p]? = some (some b) ∧
      b.booking_id = booking_id) :
    ∃ pre post p b s2 out,
      s.bookings = pre ++ p :: post ∧
      s.booking_heap[p]? = some (some b) ∧ b.booking_id = booking_id ∧
      (∀ q ∈ pre, ∀ c, s.booking_heap[q]? = some (some c) → c.booking_id ≠ booking_id) ∧
      main_step s (.cancel_booking booking_id) = .ok (s2, out) ∧
      p ∉ s2.itinerary.bookings ∧ p ∉ s2.bookings ∧
      s2.itinerary.bookings = s.itinerary.bookings.filter (fun q => decide (q ≠ p)) ∧
      s2.bookings = s.bookings.filter (fun q => decide (q ≠ p)) ∧
      s2.booking_heap = s.booking_heap.set p none := by
  obtain ⟨pre, post, p, b, f, pa, hl, hb, hid, hpre, _, _, hrun⟩ :=
    cancel_loop_first_match s booking_id s.bookings hwf.2.2.1 hex
  exact ⟨pre, post, p, b, _, _, hl, hb, hid, hpre, hrun, not_mem_erase_remove _ _,
    not_mem_erase_remove _ _, erase_remove_eq_filter _ _, erase_remove_eq_filter _ _, rfl⟩

/-- C4, witness: cancelling B123 in the initial session deletes booking 0; the itinerary
and the active collection then hold booking 1 only, and no booking of the itinerary has
id B123. -/
theorem cancel_removes_booking_from_both_witness :
    initial_session.wf ∧
    (∃ s2 out, main_step initial_session (.cancel_booking "B123") = .ok (s2, out) ∧
      s2.itinerary.bookings = [1] ∧ s2.bookings = [1] ∧
      s2.booking_heap = [none, some ⟨"B456", 1, 1, "14B", "Confirmed"⟩] ∧
      ∀ q ∈ s2.itinerary.bookings, ∀ c, s2.booking_heap[q]? = some (some c) →
        c.booking_id ≠ "B123") := by
  have hwf : initial_session.wf := by decide
  refine ⟨hwf, ?_⟩
  obtain ⟨pre, post, p, b, s2, out, hl, hb, hid, hpre, hrun, _, _, hit, hbs, hheap⟩ :=
    cancel_removes_booking_from_both initial_session "B123" hwf
      ⟨0, by decide, ⟨"B123", 0, 0, "12A", "Confirmed"⟩, rfl, rfl⟩
  have hrun2 : main_step initial_session (.cancel_booking "B123")
      = .ok ({ initial_session with
                booking_heap := [none, some ⟨"B456", 1, 1, "14B", "Confirmed"⟩]
                itinerary := ⟨"I123", [1]⟩
                bookings := [1] },
             [Event.update 0
               "Booking cancelled for flight New York to Los Angeles for passenger John Doe",
              .print "Booking cancelled successfully!"]) := rfl
  rw [hrun2] at hrun
  injection hrun with hrun
  injection hrun with hs hout
  subst hs
  refine ⟨_, _, hrun2, rfl, rfl, rfl, ?_⟩
  intro q hq c hc
  have hq1 : q = 1 := by simpa using hq
  subst hq1
  simp at hc
  subst hc
  decide

/-! ## Well-formed sessions: the menu loop never dereferences a dead pointer -/

theorem booking_ok_of_heap (s t : Session) (p : Ptr)
    (hb : t.booking_heap[p]? = s.booking_heap[p]?)
    (hf : s.flight_heap.length ≤ t.flight_heap.length)
    (hp : s.passenger_heap.length ≤ t.passenger_heap.length)
    (h : booking_ok s p = true) : booking_ok t p = true := by
  obtain ⟨b, f, pa, h1, h2, h3⟩ := booking_ok_elim s p h
  have hfl : b.flight < t.flight_heap.length :=
    Nat.lt_of_lt_of_le (List.getElem?_eq_some_iff.1 h2).1 hf
  have hpl : b.passenger < t.passenger_heap.length :=
    Nat.lt_of_lt_of_le (List.getElem?_eq_some_iff.1 h3).1 hp
  simp [booking_ok, hb, h1, hfl, hpl]

theorem find_passenger_loop_mem (passenger_heap : List Passenger) (passport : String)
    (l : List Ptr) (p : Ptr)
    (h : find_passenger_loop passenger_heap passport l = .ok (some p)) : p ∈ l := by
  induction l with
  | nil => cases h
  | cons x rest ih =>
    rw [find_passenger_loop] at h
    cases hd : deref passenger_heap x with
    | error e => simp [hd, bind, Except.bind] at h
    | ok a =>
      by_cases hn : a.passport_number = passport
      · simp [hd, bind, Except.bind, hn, pure, Except.pure] at h
        subst h
        exact List.mem_cons_self _ _
      · simp only [hd, bind, Except.bind, hn, if_false] at h
        exact List.mem_cons_of_mem _ (ih h)

theorem find_flight_loop_mem (flight_heap : List Flight) (n : String) (l : List Ptr) (p : Ptr)
    (h : find_flight_loop flight_heap n l = .ok p) : p ∈ l := by
  induction l with
  | nil => cases h
  | cons x rest ih =>
    rw [find_flight_loop] at h
    cases hd : deref flight_heap x with
    | error e => simp [hd] at h
    | ok a =>
      by_cases hn : a.flight_number = n
      · simp [hd, hn] at h
        subst h
        exact List.mem_cons_self _ _
      · simp only [hd, hn, if_false] at h
        exact List.mem_cons_of_mem _ (ih h)

theorem get_booking_info_no_fault (s : Session) (p : Ptr) (h : booking_ok s p = true) :
    ∃ r, Booking.get_booking_info s p = .ok r := by
  obtain ⟨b, f, pa, h1, h2, _⟩ := booking_ok_elim s p h
  simp [Booking.get_booking_info, deref_booking, deref, h1, h2, bind, Except.bind,
    pure, Except.pure]

theorem itinerary_loop_no_fault (s : Session) (l : List Ptr)
    (h : ∀ p ∈ l, booking_ok s p = true) : ∃ r, itinerary_loop s l = .ok r := by
  induction l with
  | nil => exact ⟨[], rfl⟩
  | cons x rest ih =>
    obtain ⟨r1, h1⟩ := get_booking_info_no_fault s x (h x (List.mem_cons_self _ _))
    obtain ⟨r2, h2⟩ := ih (fun q hq => h q (List.mem_cons_of_mem _ hq))
    simp [itinerary_loop, h1, h2, bind, Except.bind, pure, Except.pure]

theorem schedule_loop_no_fault (s : Session) (l : List Ptr)
    (h : ∀ p ∈ l, p < s.flight_heap.length) : ∃ r, schedule_loop s l = .ok r := by
  induction l with
  | nil => exact ⟨[], rfl⟩
  | cons x rest ih =>
    obtain ⟨r2, h2⟩ := ih (fun q hq => h q (List.mem_cons_of_mem _ hq))
    simp only [schedule_loop, deref_of_lt _ x (h x (List.mem_cons_self _ _)), h2,
      bind, Except.bind, pure, Except.pure]
    exact ⟨_, rfl⟩

theorem display_passengers_loop_no_fault (s : Session) (flight : Ptr) (l : List Ptr)
    (h : ∀ p ∈ l, booking_ok s p = true) :
    ∃ r, display_passengers_loop s flight l = .ok r := by
  induction l with
  | nil => exact ⟨[], rfl⟩
  | cons x rest ih =>
    obtain ⟨b, f, pa, h1, _, h3⟩ := booking_ok_elim s x (h x (List.mem_cons_self _ _))
    obtain ⟨r2, h2⟩ := ih (fun q hq => h q (List.mem_cons_of_mem _ hq))
    by_cases hfl : b.flight = flight
    · simp [display_passengers_loop, deref_booking, deref, h1, h3, h2, hfl, bind,
        Except.bind, pure, Except.pure]
    · simp [display_passengers_loop, deref_booking, h1, h2, hfl, bind,
        Except.bind]

theorem display_passengers_no_fault (s : Session) (flight : Ptr) (l : List Ptr)
    (hf : flight < s.flight_heap.length) (h : ∀ p ∈ l, booking_ok s p = true) :
    ∃ r, display_passengers s flight l = .ok r := by
  obtain ⟨r, hr⟩ := display_passengers_loop_no_fault s flight l h
  simp only [display_passengers, deref_of_lt _ flight hf, hr, bind, Except.bind,
    pure, Except.pure]
  exact ⟨_, rfl⟩

theorem display_type_loop_no_fault (s : Session) (kind : FlightType) (bookings l : List Ptr)
    (hl : ∀ p ∈ l, p < s.flight_heap.length) (h : ∀ p ∈ bookings, booking_ok s p = true) :
    ∃ r, display_type_loop s kind bookings l = .ok r := by
  induction l with
  | nil => exact ⟨[], rfl⟩
  | cons x rest ih =>
    have hx := hl x (List.mem_cons_self _ _)
    obtain ⟨r1, h1⟩ := display_passengers_no_fault s x bookings hx h
    obtain ⟨r2, h2⟩ := ih (fun q hq => hl q (List.mem_cons_of_mem _ hq))
    by_cases hk : (s.flight_heap.get ⟨x, hx⟩).kind = kind
    · simp only [display_type_loop, deref_of_lt _ x hx, hk, h1, h2, if_true, bind,
        Except.bind, pure, Except.pure]
      exact ⟨_, rfl⟩
    · simp only [display_type_loop, deref_of_lt _ x hx, hk, h2, if_false, bind,
        Except.bind]
      exact ⟨_, rfl⟩

theorem view_passenger_loop_no_fault (s : Session) (passport : String) (l : List Ptr)
    (h : ∀ p ∈ l, p < s.passenger_heap.length) :
    ∃ r, view_passenger_loop s passport l = .ok r := by
  induction l with
  | nil => exact ⟨_, rfl⟩
  | cons x rest ih =>
    have hx := h x (List.mem_cons_self _ _)
    obtain ⟨r2, h2⟩ := ih (fun q hq => h q (List.mem_cons_of_mem _ hq))
    by_cases hk : (s.passenger_heap.get ⟨x, hx⟩).passport_number = passport
    · simp only [view_passenger_loop, deref_of_lt _ x hx, hk, if_true, bind,
        Except.bind, pure, Except.pure]
      exact ⟨_, rfl⟩
    · simp only [view_passenger_loop, deref_of_lt _ x hx, hk, h2, if_false, bind,
        Except.bind]
      exact ⟨_, rfl⟩

theorem view_flight_loop_no_fault (s : Session) (n : String) (l : List Ptr)
    (h : ∀ p ∈ l, p < s.flight_heap.length) :
    ∃ r, view_flight_loop s n l = .ok r := by
  induction l with
  | nil => exact ⟨_, rfl⟩
  | cons x rest ih =>
    have hx := h x (List.mem_cons_self _ _)
    obtain ⟨r2, h2⟩ := ih (fun q hq => h q (List.mem_cons_of_mem _ hq))
    by_cases hk : (s.flight_heap.get ⟨x, hx⟩).flight_number = n
    · simp only [view_flight_loop, deref_of_lt _ x hx, hk, if_true, bind,
        Except.bind, pure, Except.pure]
      exact ⟨_, rfl⟩
    · simp only [view_flight_loop, deref_of_lt _ x hx, hk, h2, if_false, bind,
        Except.bind]
      exact ⟨_, rfl⟩

theorem wf_mono (s t : Session) (hwf : s.wf)
    (hfl : s.flight_heap.length ≤ t.flight_heap.length)
    (hpl : s.passenger_heap.length ≤ t.passenger_heap.length)
    (hf1 : t.flight1 = s.flight1) (hf2 : t.flight2 = s.flight2)
    (hsched : ∀ p ∈ t.schedule.flights, p ∈ s.schedule.flights)
    (hpass : ∀ p ∈ t.passengers, p ∈ s.passengers ∨ p < t.passenger_heap.length)
    (hbk : ∀ p ∈ t.bookings,
      (p ∈ s.bookings ∧ t.booking_heap[p]? = s.booking_heap[p]?) ∨ booking_ok t p = true)
    (hit : ∀ p ∈ t.itinerary.bookings,
      (p ∈ s.itinerary.bookings ∧ t.booking_heap[p]? = s.booking_heap[p]?) ∨
        booking_ok t p = true) : t.wf := by
  obtain ⟨w1, w2, w3, w4, w5, w6⟩ := hwf
  refine ⟨fun p hp => Nat.lt_of_lt_of_le (w1 p (hsched p hp)) hfl, fun p hp => ?_,
    fun p hp => ?_, fun p hp => ?_, ?_, ?_⟩
  · rcases hpass p hp with h | h
    · exact Nat.lt_of_lt_of_le (w2 p h) hpl
    · exact h
  · rcases hbk p hp with ⟨h, he⟩ | h
    · exact booking_ok_of_heap s t p he hfl hpl (w3 p h)
    · exact h
  · rcases hit p hp with ⟨h, he⟩ | h
    · exact booking_ok_of_heap s t p he hfl hpl (w4 p h)
    · exact h
  · rw [hf1]
    exact Nat.lt_of_lt_of_le w5 hfl
  · rw [hf2]
    exact Nat.lt_of_lt_of_le w6 hfl

theorem cancel_loop_no_match (s : Session) (booking_id : String) (l : List Ptr)
    (hok : ∀ p ∈ l, booking_ok s p = true)
    (hno : ¬ ∃ p ∈ l, ∃ b, s.booking_heap[p]? = some (some b) ∧ b.booking_id = booking_id) :
    cancel_loop s booking_id l = .ok (s, [.print "Booking not found"]) := by
  induction l with
  | nil => rfl
  | cons x rest ih =>
    obtain ⟨b, f, pa, hb, _, _⟩ := booking_ok_elim s x (hok x (List.mem_cons_self _ _))
    have hid : ¬ b.booking_id = booking_id :=
      fun h => hno ⟨x, List.mem_cons_self _ _, b, hb, h⟩
    have hrest := ih (fun q hq => hok q (List.mem_cons_of_mem _ hq))
      (fun ⟨p, hp, c, hc, hcid⟩ => hno ⟨p, List.mem_cons_of_mem _ hp, c, hc, hcid⟩)
    rw [← hrest]
    simp [cancel_loop, deref_booking, hb, hid, bind, Except.bind]

theorem mem_of_mem_erase_remove (xs : List Ptr) (value q : Ptr)
    (h : q ∈ erase_remove xs value) : q ∈ xs ∧ q ≠ value := by
  rw [erase_remove_eq_filter] at h
  simpa using h

theorem cancel_step_wf (s : Session) (booking_id : String) (hwf : s.wf) :
    ∃ s2 out, cancel_loop s booking_id s.bookings = .ok (s2, out) ∧ s2.wf := by
  by_cases hex : ∃ p ∈ s.bookings, ∃ b, s.booking_heap[p]? = some (some b) ∧
      b.booking_id = booking_id
  · obtain ⟨pre, post, p, b, f, pa, _, _, _, _, _, _, hrun⟩ :=
      cancel_loop_first_match s booking_id s.bookings hwf.2.2.1 hex
    refine ⟨_, _, hrun, ?_⟩
    refine wf_mono s _ hwf (Nat.le_refl _) (Nat.le_refl _) rfl rfl ?_ ?_ ?_ ?_
    · exact fun q hq => hq
    · exact fun q hq => Or.inl hq
    · intro q hq
      obtain ⟨h1, h2⟩ := mem_of_mem_erase_remove _ _ _ hq
      exact Or.inl ⟨h1, List.getElem?_set_ne (Ne.symm h2)⟩
    · intro q hq
      obtain ⟨h1, h2⟩ := mem_of_mem_erase_remove _ _ _ hq
      exact Or.inl ⟨h1, List.getElem?_set_ne (Ne.symm h2)⟩
  · exact ⟨_, _, cancel_loop_no_match s booking_id s.bookings hwf.2.2.1 hex, hwf⟩

theorem book_step_wf (s : Session) (passenger : Ptr)
    (flight_number seat_number booking_id : String) (hwf : s.wf)
    (hpa : passenger < s.passenger_heap.length) :
    (book_flight s passenger flight_number seat_number booking_id
        = .ok (s, none, [.print "Flight not found"])) ∨
    (∃ s1 nb out, book_flight s passenger flight_number seat_number booking_id
        = .ok (s1, some nb, out) ∧
      ∃ s2 out2, Booking.confirm_booking
          { s1 with bookings := s1.bookings ++ [nb],
                    itinerary := s1.itinerary.add_booking nb } nb = .ok (s2, out2) ∧
        s2.wf) := by
  rcases find_flight_loop_no_fault s.flight_heap flight_number s.schedule.flights hwf.1 with
    ⟨flight, hfind⟩ | hfind
  · right
    have hmem := find_flight_loop_mem _ _ _ _ hfind
    have hfl : flight < s.flight_heap.length := hwf.1 flight hmem
    have hbook : book_flight s passenger flight_number seat_number booking_id
        = .ok ({ s with
                  booking_heap := s.booking_heap
                    ++ [some (Booking.mk booking_id passenger flight seat_number "Pending")]
                  flight_heap := s.flight_heap.set flight
                    ((s.flight_heap.get ⟨flight, hfl⟩).attach passenger) },
               some s.booking_heap.length, []) := by
      have h2 : find_flight_by_number s.flight_heap s.schedule flight_number = .ok flight :=
        hfind
      simp only [book_flight, h2, deref_of_lt _ flight hfl]
    refine ⟨_, _, _, hbook, ?_⟩
    have hconf := confirm_booking_eq
      { s with
          booking_heap := s.booking_heap
            ++ [some (Booking.mk booking_id passenger flight seat_number "Pending")]
          flight_heap := s.flight_heap.set flight
            ((s.flight_heap.get ⟨flight, hfl⟩).attach passenger)
          bookings := s.bookings ++ [s.booking_heap.length]
          itinerary := s.itinerary.add_booking s.booking_heap.length }
      s.booking_heap.length (Booking.mk booking_id passenger flight seat_number "Pending")
      ((s.flight_heap.get ⟨flight, hfl⟩).attach passenger) (s.passenger_heap.get ⟨passenger, hpa⟩)
      (by simp) (by simp [List.getElem?_set_self hfl]) (by simp [List.getElem?_eq_getElem hpa])
    refine ⟨_, _, hconf, ?_⟩
    have hold : ∀ q, booking_ok s q = true →
        ((s.booking_heap
            ++ [some (Booking.mk booking_id passenger flight seat_number "Pending")]).set
          s.booking_heap.length
          (some (Booking.mk booking_id passenger flight seat_number "Confirmed")))[q]?
          = s.booking_heap[q]? := by
      intro q hq
      obtain ⟨b, _, _, hb, _, _⟩ := booking_ok_elim s q hq
      have hlt : q < s.booking_heap.length := (List.getElem?_eq_some_iff.1 hb).1
      rw [List.getElem?_set_ne (Nat.ne_of_gt hlt), List.getElem?_append_left hlt]
    refine wf_mono s _ hwf (by simp) (Nat.le_refl _) rfl rfl ?_ ?_ ?_ ?_
    · exact fun q hq => hq
    · exact fun q hq => Or.inl hq
    · intro q hq
      rcases List.mem_append.1 hq with h | h
      · exact Or.inl ⟨h, hold q (hwf.2.2.1 q h)⟩
      · have hq2 : q = s.booking_heap.length := by simpa using h
        subst hq2
        right
        simp [booking_ok, hfl, hpa]
    · intro q hq
      rcases List.mem_append.1 hq with h | h
      · exact Or.inl ⟨h, hold q (hwf.2.2.2.1 q h)⟩
      · have hq2 : q = s.booking_heap.length := by simpa using h
        subst hq2
        right
        simp [booking_ok, hfl, hpa]
  · left
    have h2 : find_flight_by_number s.flight_heap s.schedule flight_number
        = .error .FlightNotFoundException := hfind
    simp [book_flight, h2, Error.what]

theorem modify_passenger_info_wf (s : Session) (passenger : Ptr) (choice : Int)
    (new_info : String) (hwf : s.wf) (hpa : passenger < s.passenger_heap.length) :
    ∃ s2 out, modify_passenger_info s passenger choice new_info = .ok (s2, out) ∧ s2.wf := by
  by_cases h1 : choice = 1
  · refine ⟨_, _, by
      (simp only [modify_passenger_info, deref_of_lt _ passenger hpa, h1, if_true, bind,
        Except.bind, pure, Except.pure]; rfl), ?_⟩
    exact wf_mono s _ hwf (Nat.le_refl _) (by simp) rfl rfl (fun q hq => hq)
      (fun q hq => Or.inl hq) (fun q hq => Or.inl ⟨hq, rfl⟩) (fun q hq => Or.inl ⟨hq, rfl⟩)
  · by_cases h2 : choice = 2
    · refine ⟨_, _, by
        (simp only [modify_passenger_info, deref_of_lt _ passenger hpa, h1, h2, if_true,
          if_false, bind, Except.bind, pure, Except.pure]; rfl), ?_⟩
      exact wf_mono s _ hwf (Nat.le_refl _) (by simp) rfl rfl (fun q hq => hq)
        (fun q hq => Or.inl hq) (fun q hq => Or.inl ⟨hq, rfl⟩) (fun q hq => Or.inl ⟨hq, rfl⟩)
    · exact ⟨_, _, by
        (simp only [modify_passenger_info, deref_of_lt _ passenger hpa, h1, h2,
          if_false, bind, Except.bind, pure, Except.pure]; rfl), hwf⟩

/-- In a well-formed session every pass of the menu loop returns normally, and the
session it leaves is well-formed. -/
theorem main_step_wf (s : Session) (c : Command) (hwf : s.wf) :
    ∃ s2 out, main_step s c = .ok (s2, out) ∧ s2.wf := by
  cases c with
  | display_itinerary =>
    obtain ⟨r, hr⟩ := itinerary_loop_no_fault s s.itinerary.bookings hwf.2.2.2.1
    exact ⟨s, _, by
      (simp only [main_step, Itinerary.get_itinerary_details, hr, bind, Except.bind, pure,
        Except.pure]; rfl), hwf⟩
  | display_schedule =>
    obtain ⟨r, hr⟩ := schedule_loop_no_fault s s.schedule.flights hwf.1
    exact ⟨s, _, by
      (simp only [main_step, Schedule.get_schedule_details, hr, bind, Except.bind, pure,
        Except.pure]; rfl), hwf⟩
  | display_by_flight_type =>
    obtain ⟨r1, hr1⟩ := display_type_loop_no_fault s .Domestic s.bookings s.schedule.flights
      hwf.1 hwf.2.2.1
    obtain ⟨r2, hr2⟩ := display_type_loop_no_fault s .International s.bookings
      s.schedule.flights hwf.1 hwf.2.2.1
    exact ⟨s, _, by
      (simp only [main_step, display_passengers_by_flight_type, Schedule.get_flights, hr1, hr2,
        bind, Except.bind, pure, Except.pure]; rfl), hwf⟩
  | modify_passenger passport_number choice new_info =>
    obtain ⟨r, hr⟩ := find_passenger_loop_no_fault s.passenger_heap passport_number
      s.passengers hwf.2.1
    cases r with
    | none =>
      exact ⟨s, _, by (simp only [main_step, hr, bind, Except.bind, pure, Except.pure]; rfl), hwf⟩
    | some passenger =>
      have hpa := hwf.2.1 passenger (find_passenger_loop_mem _ _ _ _ hr)
      obtain ⟨s2, out, h2, hwf2⟩ := modify_passenger_info_wf s passenger choice new_info hwf hpa
      exact ⟨s2, out, by simp only [main_step, hr, bind, Except.bind, h2], hwf2⟩
  | notify_passengers =>
    have h1 := hwf.2.2.2.2.1
    have h2 := hwf.2.2.2.2.2
    have h2b : s.flight2 < (s.flight_heap.set s.flight1
        ((s.flight_heap.get ⟨s.flight1, h1⟩).notify
          "This is a notification for domestic flight.").1).length := by
      simpa using h2
    refine ⟨_, _, by
      (simp only [main_step, deref_of_lt _ s.flight1 h1, deref_of_lt _ s.flight2 h2b, bind,
        Except.bind, pure, Except.pure]; rfl), ?_⟩
    exact wf_mono s _ hwf (by simp) (Nat.le_refl _) rfl rfl (fun q hq => hq)
      (fun q hq => Or.inl hq) (fun q hq => Or.inl ⟨hq, rfl⟩) (fun q hq => Or.inl ⟨hq, rfl⟩)
  | add_passenger name email phone_number passport_number =>
    refine ⟨_, _, rfl, ?_⟩
    refine wf_mono s _ hwf (Nat.le_refl _) (by simp [add_passenger]) rfl rfl
      (fun q hq => hq) ?_ (fun q hq => Or.inl ⟨hq, rfl⟩) (fun q hq => Or.inl ⟨hq, rfl⟩)
    intro q hq
    rcases List.mem_append.1 hq with h | h
    · exact Or.inl h
    · have hq2 : q = s.passenger_heap.length := by simpa [add_passenger] using h
      subst hq2
      right
      simp [add_passenger]
  | book_flight passport_number flight_number seat_number booking_id =>
    obtain ⟨r, hr⟩ := find_passenger_loop_no_fault s.passenger_heap passport_number
      s.passengers hwf.2.1
    cases r with
    | none =>
      exact ⟨s, _, by (simp only [main_step, hr, bind, Except.bind, pure, Except.pure]; rfl), hwf⟩
    | some passenger =>
      have hpa := hwf.2.1 passenger (find_passenger_loop_mem _ _ _ _ hr)
      rcases book_step_wf s passenger flight_number seat_number booking_id hwf hpa with
        hb | ⟨s1, nb, out, hb, s2, out2, hc, hwf2⟩
      · exact ⟨s, _, by (simp only [main_step, hr, hb, bind, Except.bind, pure, Except.pure]; rfl),
          hwf⟩
      · refine ⟨s2, out ++ out2 ++ [.print "Flight booked successfully!"], ?_, hwf2⟩
        simp only [main_step, hr, hb, hc, bind, Except.bind, pure, Except.pure]
  | cancel_booking booking_id => exact cancel_step_wf s booking_id hwf
  | view_passenger passport_number =>
    obtain ⟨r, hr⟩ := view_passenger_loop_no_fault s passport_number s.passengers hwf.2.1
    exact ⟨s, _, by (simp only [main_step, hr, bind, Except.bind, pure, Except.pure]; rfl), hwf⟩
  | view_flight flight_number =>
    obtain ⟨r, hr⟩ := view_flight_loop_no_fault s flight_number s.schedule.flights hwf.1
    exact ⟨s, _, by
      (simp only [main_step, Schedule.get_flights, hr, bind, Except.bind, pure, Except.pure]; rfl),
      hwf⟩
  | exit => exact ⟨s, _, rfl, hwf⟩
  | invalid => exact ⟨s, _, rfl, hwf⟩

/-- From a well-formed session every run of the menu loop returns normally and ends in a
well-formed session; in particular so does every run from the initial session. -/
theorem main_run_wf (cmds : List Command) (s : Session) (hwf : s.wf) :
    ∃ s2 out, main_run s cmds = .ok (s2, out) ∧ s2.wf := by
  induction cmds generalizing s with
  | nil => exact ⟨s, [], rfl, hwf⟩
  | cons c rest ih =>
    obtain ⟨s1, out1, h1, hwf1⟩ := main_step_wf s c hwf
    obtain ⟨s2, out2, h2, hwf2⟩ := ih s1 hwf1
    by_cases hc : c = .exit
    · subst hc
      exact ⟨s1, out1, by
        simp only [main_run, h1, if_true, bind, Except.bind, pure, Except.pure], hwf1⟩
    · exact ⟨s2, out1 ++ out2, by
        simp only [main_run, h1, h2, hc, if_false, bind, Except.bind, pure, Except.pure], hwf2⟩

theorem initial_session_wf : initial_session.wf := by decide

/-- Every run of the menu loop from the initial session returns normally and ends in a
well-formed session. -/
theorem main_run_initial_wf (cmds : List Command) :
    ∃ s out, main_run initial_session cmds = .ok (s, out) ∧ s.wf :=
  main_run_wf cmds initial_session initial_session_wf

/-! ## The itinerary and the active bookings hold the same pointers -/

theorem confirm_booking_lists (s : Session) (this : Ptr) (s2 : Session) (out : List Event)
    (h : Booking.confirm_booking s this = .ok (s2, out)) :
    s2.itinerary = s.itinerary ∧ s2.bookings = s.bookings := by
  unfold Booking.confirm_booking at h
  cases hb : deref_booking s.booking_heap this with
  | error e => simp [hb, bind, Except.bind] at h
  | ok b =>
    cases hf : deref s.flight_heap b.flight with
    | error e => simp [hb, hf, bind, Except.bind] at h
    | ok f =>
      cases hp : deref s.passenger_heap b.passenger with
      | error e => simp [hb, hf, hp, bind, Except.bind] at h
      | ok p =>
        simp only [hb, hf, hp, bind, Except.bind, pure, Except.pure] at h
        injection h with h
        injection h with h1 h2
        subst h1
        exact ⟨rfl, rfl⟩

theorem cancel_booking_lists (s : Session) (this : Ptr) (s2 : Session) (out : List Event)
    (h : Booking.cancel_booking s this = .ok (s2, out)) :
    s2.itinerary = s.itinerary ∧ s2.bookings = s.bookings := by
  unfold Booking.cancel_booking at h
  cases hb : deref_booking s.booking_heap this with
  | error e => simp [hb, bind, Except.bind] at h
  | ok b =>
    cases hf : deref s.flight_heap b.flight with
    | error e => simp [hb, hf, bind, Except.bind] at h
    | ok f =>
      cases hp : deref s.passenger_heap b.passenger with
      | error e => simp [hb, hf, hp, bind, Except.bind] at h
      | ok p =>
        simp only [hb, hf, hp, bind, Except.bind, pure, Except.pure] at h
        injection h with h
        injection h with h1 h2
        subst h1
        exact ⟨rfl, rfl⟩

theorem book_flight_lists (s : Session) (passenger : Ptr)
    (flight_number seat_number booking_id : String) (s1 : Session) (nb : Option Ptr)
    (out : List Event)
    (h : book_flight s passenger flight_number seat_number booking_id = .ok (s1, nb, out)) :
    s1.itinerary = s.itinerary ∧ s1.bookings = s.bookings := by
  unfold book_flight at h
  split at h
  · next flight hfind =>
    simp only at h
    split at h
    · injection h with h
      injection h with h1 h2
      subst h1
      exact ⟨rfl, rfl⟩
    · cases h
  · injection h with h
    injection h with h1 h2
    subst h1
    exact ⟨rfl, rfl⟩
  · cases h

theorem modify_passenger_info_lists (s : Session) (passenger : Ptr) (choice : Int)
    (new_info : String) (s2 : Session) (out : List Event)
    (h : modify_passenger_info s passenger choice new_info = .ok (s2, out)) :
    s2.itinerary = s.itinerary ∧ s2.bookings = s.bookings := by
  unfold modify_passenger_info at h
  cases hp : deref s.passenger_heap passenger with
  | error e => simp [hp, bind, Except.bind] at h
  | ok p =>
    simp only [hp, bind, Except.bind, pure, Except.pure] at h
    split at h
    · injection h with h
      injection h with h1 h2
      subst h1
      exact ⟨rfl, rfl⟩
    · split at h
      · injection h with h
        injection h with h1 h2
        subst h1
        exact ⟨rfl, rfl⟩
      · injection h with h
        injection h with h1 h2
        subst h1
        exact ⟨rfl, rfl⟩

theorem cancel_loop_lists (s : Session) (booking_id : String) (l : List Ptr) (s2 : Session)
    (out : List Event) (h : cancel_loop s booking_id l = .ok (s2, out)) :
    (s2.itinerary.bookings = s.itinerary.bookings ∧ s2.bookings = s.bookings) ∨
    (∃ p ∈ l, s2.itinerary.bookings = erase_remove s.itinerary.bookings p ∧
      s2.bookings = erase_remove s.bookings p) := by
  induction l with
  | nil =>
    left
    simp only [cancel_loop, pure, Except.pure] at h
    injection h with h
    injection h with h1 h2
    subst h1
    exact ⟨rfl, rfl⟩
  | cons x rest ih =>
    rw [cancel_loop] at h
    cases hb : deref_booking s.booking_heap x with
    | error e => simp [hb, bind, Except.bind] at h
    | ok b =>
      by_cases hid : b.booking_id = booking_id
      · cases hc : Booking.cancel_booking s x with
        | error e => simp [hb, hid, hc, bind, Except.bind] at h
        | ok r =>
          obtain ⟨r1, r2⟩ := r
          obtain ⟨e1, e2⟩ := cancel_booking_lists s x r1 r2 hc
          simp only [hb, hid, hc, if_true, bind, Except.bind, pure, Except.pure] at h
          injection h with h
          injection h with h1 h2
          subst h1
          right
          refine ⟨x, List.mem_cons_self _ _, ?_, ?_⟩
          · simp only [Itinerary.remove_booking, e1]
          · simp only [e2]
      · simp only [hb, hid, if_false, bind, Except.bind] at h
        rcases ih h with h3 | ⟨p, hp, h3⟩
        · exact Or.inl h3
        · exact Or.inr ⟨p, List.mem_cons_of_mem _ hp, h3⟩

theorem bind_pure_state {α : Type} (X : Except Error α) (s s2 : Session)
    (f : α → List Event) (out : List Event)
    (h : (X >>= fun a => (pure (s, f a) : Except Error (Session × List Event)))
      = .ok (s2, out)) : s2 = s := by
  cases X with
  | error e => cases h
  | ok a =>
    simp only [bind, Except.bind, pure, Except.pure] at h
    injection h with h
    injection h with h1 h2
    exact h1.symm

/-- What one pass of the menu loop does to the two booking lists: it leaves both as they
are, or (option 7) appends one new pointer to both, or (option 8) removes one pointer of
the active collection from both. -/
theorem main_step_lists (s : Session) (c : Command) (s2 : Session) (out : List Event)
    (h : main_step s c = .ok (s2, out)) :
    (s2.itinerary.bookings = s.itinerary.bookings ∧ s2.bookings = s.bookings) ∨
    ((∃ pn fn sn bid, c = .book_flight pn fn sn bid) ∧
      ∃ nb, s2.itinerary.bookings = s.itinerary.bookings ++ [nb] ∧
        s2.bookings = s.bookings ++ [nb]) ∨
    ((∃ bid, c = .cancel_booking bid) ∧
      ∃ p ∈ s.bookings, s2.itinerary.bookings = erase_remove s.itinerary.bookings p ∧
        s2.bookings = erase_remove s.bookings p) := by
  cases c with
  | display_itinerary =>
    have e := bind_pure_state _ s s2 (fun o => o) out h
    subst e
    exact Or.inl ⟨rfl, rfl⟩
  | display_schedule =>
    have e := bind_pure_state _ s s2 (fun o => o) out h
    subst e
    exact Or.inl ⟨rfl, rfl⟩
  | display_by_flight_type =>
    have e := bind_pure_state _ s s2 (fun o => o) out h
    subst e
    exact Or.inl ⟨rfl, rfl⟩
  | modify_passenger passport_number choice new_info =>
    left
    simp only [main_step] at h
    cases hf : find_passenger_loop s.passenger_heap passport_number s.passengers with
    | error e => simp [hf, bind, Except.bind] at h
    | ok r =>
      cases r with
      | none =>
        simp only [hf, bind, Except.bind, pure, Except.pure] at h
        injection h with h
        injection h with h1 h2
        subst h1
        exact ⟨rfl, rfl⟩
      | some passenger =>
        simp only [hf, bind, Except.bind] at h
        obtain ⟨e1, e2⟩ := modify_passenger_info_lists s passenger choice new_info s2 out h
        exact ⟨by rw [e1], e2⟩
  | notify_passengers =>
    left
    simp only [main_step] at h
    cases h1 : deref s.flight_heap s.flight1 with
    | error e => simp [h1, bind, Except.bind] at h
    | ok f1 =>
      simp only [h1, bind, Except.bind] at h
      split at h
      · cases h
      · simp only [pure, Except.pure] at h
        injection h with h
        injection h with e1 e2
        subst e1
        exact ⟨rfl, rfl⟩
  | add_passenger name email phone_number passport_number =>
    left
    simp only [main_step, add_passenger, pure, Except.pure] at h
    injection h with h
    injection h with e1 e2
    subst e1
    exact ⟨rfl, rfl⟩
  | book_flight passport_number flight_number seat_number booking_id =>
    simp only [main_step] at h
    cases hf : find_passenger_loop s.passenger_heap passport_number s.passengers with
    | error e => simp [hf, bind, Except.bind] at h
    | ok r =>
      cases r with
      | none =>
        simp only [hf, bind, Except.bind, pure, Except.pure] at h
        injection h with h
        injection h with h1 h2
        subst h1
        exact Or.inl ⟨rfl, rfl⟩
      | some passenger =>
        cases hb : book_flight s passenger flight_number seat_number booking_id with
        | error e => simp [hf, hb, bind, Except.bind] at h
        | ok r =>
          obtain ⟨s1, nbo, out1⟩ := r
          obtain ⟨e1, e2⟩ := book_flight_lists s passenger flight_number seat_number
            booking_id s1 nbo out1 hb
          cases nbo with
          | none =>
            simp only [hf, hb, bind, Except.bind, pure, Except.pure] at h
            injection h with h
            injection h with h1 h2
            subst h1
            exact Or.inl ⟨by rw [e1], e2⟩
          | some nb =>
            simp only [hf, hb, bind, Except.bind] at h
            cases hc : Booking.confirm_booking
                { s1 with bookings := s1.bookings ++ [nb],
                          itinerary := s1.itinerary.add_booking nb } nb with
            | error e => simp [hc] at h
            | ok c =>
              obtain ⟨c1, c2⟩ := c
              obtain ⟨d1, d2⟩ := confirm_booking_lists _ nb c1 c2 hc
              simp only [hc, pure, Except.pure] at h
              injection h with h
              injection h with h1 h2
              subst h1
              right
              left
              refine ⟨⟨_, _, _, _, rfl⟩, nb, ?_, ?_⟩
              · rw [d1]
                simp only [Itinerary.add_booking, e1]
              · rw [d2, e2]
  | cancel_booking booking_id =>
    rcases cancel_loop_lists s booking_id s.bookings s2 out h with h1 | h1
    · exact Or.inl h1
    · exact Or.inr (Or.inr ⟨⟨_, rfl⟩, h1⟩)
  | view_passenger passport_number =>
    have e := bind_pure_state _ s s2 (fun o => o) out h
    subst e
    exact Or.inl ⟨rfl, rfl⟩
  | view_flight flight_number =>
    have e := bind_pure_state _ s s2 (fun o => o) out h
    subst e
    exact Or.inl ⟨rfl, rfl⟩
  | exit =>
    simp only [main_step, pure, Except.pure] at h
    injection h with h
    injection h with e1 e2
    subst e1
    exact Or.inl ⟨rfl, rfl⟩
  | invalid =>
    simp only [main_step, pure, Except.pure] at h
    injection h with h
    injection h with e1 e2
    subst e1
    exact Or.inl ⟨rfl, rfl⟩

theorem main_step_preserves_agreement (s : Session) (c : Command) (s2 : Session)
    (out : List Event) (h : main_step s c = .ok (s2, out))
    (heq : s.itinerary.bookings = s.bookings) : s2.itinerary.bookings = s2.bookings := by
  rcases main_step_lists s c s2 out h with ⟨h1, h2⟩ | ⟨_, nb, h1, h2⟩ | ⟨_, p, _, h1, h2⟩
  · rw [h1, h2, heq]
  · rw [h1, h2, heq]
  · rw [h1, h2, heq]

theorem main_run_preserves_agreement (cmds : List Command) (s s2 : Session)
    (out : List Event) (h : main_run s cmds = .ok (s2, out))
    (heq : s.itinerary.bookings = s.bookings) : s2.itinerary.bookings = s2.bookings := by
  induction cmds generalizing s out with
  | nil =>
    simp only [main_run, pure, Except.pure] at h
    injection h with h
    injection h with h1 h2
    subst h1
    exact heq
  | cons c rest ih =>
    rw [main_run] at h
    cases hs : main_step s c with
    | error e => simp [hs, bind, Except.bind] at h
    | ok r =>
      obtain ⟨s1, out1⟩ := r
      have heq1 := main_step_preserves_agreement s c s1 out1 hs heq
      by_cases hc : c = .exit
      · subst hc
        simp only [hs, if_true, bind, Except.bind, pure, Except.pure] at h
        injection h with h
        injection h with h1 h2
        subst h1
        exact heq1
      · simp only [hs, hc, if_false, bind, Except.bind] at h
        cases hr : main_run s1 rest with
        | error e => simp [hr] at h
        | ok r2 =>
          obtain ⟨s3, out3⟩ := r2
          simp only [hr, pure, Except.pure] at h
          injection h with h
          injection h with h1 h2
          subst h1
          exact ih s1 out3 hr heq1

/-- C11: the statements before the menu loop build the initial session, in which the
itinerary and the active collection both hold booking B123 then booking B456; every run
of the menu loop from it returns normally and ends in a session whose itinerary list and
active collection are the same list of pointers; every pass of the loop keeps the two
lists equal when they were equal, option 7 by appending the new booking to both and
option 8 by removing the cancelled booking from both; and a pass with any other option
leaves both lists as they were. -/
theorem itinerary_and_active_bookings_agree :
    (main_init = .ok initial_session ∧
      initial_session.itinerary.bookings = [0, 1] ∧ initial_session.bookings = [0, 1] ∧
      initial_session.booking_heap.map (fun b => b.map (fun x => x.booking_id))
        = [some "B123", some "B456"]) ∧
    (∀ cmds : List Command, ∃ s out, main_run initial_session cmds = .ok (s, out) ∧
      s.itinerary.bookings = s.bookings) ∧
    (∀ (s : Session) (c : Command) (s2 : Session) (out : List Event),
      main_step s c = .ok (s2, out) → s.itinerary.bookings = s.bookings →
        s2.itinerary.bookings = s2.bookings) ∧
    (∀ (s : Session) (pn fn sn bid : String) (s2 : Session) (out : List Event),
      main_step s (.book_flight pn fn sn bid) = .ok (s2, out) →
        (s2.itinerary.bookings = s.itinerary.bookings ∧ s2.bookings = s.bookings) ∨
        ∃ nb, s2.itinerary.bookings = s.itinerary.bookings ++ [nb] ∧
          s2.bookings = s.bookings ++ [nb]) ∧
    (∀ (s : Session) (bid : String) (s2 : Session) (out : List Event),
      main_step s (.cancel_booking bid) = .ok (s2, out) →
        (s2.itinerary.bookings = s.itinerary.bookings ∧ s2.bookings = s.bookings) ∨
        ∃ p ∈ s.bookings,
          s2.itinerary.bookings = s.itinerary.bookings.filter (fun q => decide (q ≠ p)) ∧
          s2.bookings = s.bookings.filter (fun q => decide (q ≠ p))) ∧
    (∀ (s : Session) (c : Command) (s2 : Session) (out : List Event),
      main_step s c = .ok (s2, out) →
      (∀ pn fn sn bid, c ≠ .book_flight pn fn sn bid) → (∀ bid, c ≠ .cancel_booking bid) →
        s2.itinerary.bookings = s.itinerary.bookings ∧ s2.bookings = s.bookings) := by
  refine ⟨⟨rfl, rfl, rfl, rfl⟩, fun cmds => ?_, main_step_preserves_agreement,
    fun s pn fn sn bid s2 out h => ?_, fun s bid s2 out h => ?_,
    fun s c s2 out h hb hc => ?_⟩
  · obtain ⟨s, out, hrun, _⟩ := main_run_initial_wf cmds
    exact ⟨s, out, hrun, main_run_preserves_agreement cmds initial_session s out hrun rfl⟩
  · rcases main_step_lists s _ s2 out h with h1 | ⟨_, h1⟩ | ⟨⟨b, hb⟩, _⟩
    · exact Or.inl h1
    · exact Or.inr h1
    · cases hb
  · rcases main_step_lists s _ s2 out h with h1 | ⟨⟨_, _, _, _, hb⟩, _⟩ | ⟨_, p, hp, h1, h2⟩
    · exact Or.inl h1
    · cases hb
    · right
      refine ⟨p, hp, ?_, ?_⟩
      · rw [h1, erase_remove_eq_filter]
      · rw [h2, erase_remove_eq_filter]
  · rcases main_step_lists s c s2 out h with h1 | ⟨⟨pn, fn, sn, bid, hx⟩, _⟩ | ⟨⟨bid, hx⟩, _⟩
    · exact h1
    · exact absurd hx (hb pn fn sn bid)
    · exact absurd hx (hc bid)

/-- C11, witness: from the initial session, where the two lists are equal, booking FL123
for passenger P54321 leaves both lists equal to the pointers 0, 1, 2, and the pass of
option 5 that follows leaves them so. -/
theorem itinerary_and_active_bookings_agree_witness :
    initial_session.itinerary.bookings = initial_session.bookings ∧
    ∃ s2 out, main_step initial_session (.book_flight "P54321" "FL123" "3C" "B789")
        = .ok (s2, out) ∧
      s2.itinerary.bookings = s2.bookings ∧ s2.bookings = [0, 1, 2] ∧
      ∃ s3 out3, main_step s2 .notify_passengers = .ok (s3, out3) ∧
        s3.itinerary.bookings = [0, 1, 2] ∧ s3.bookings = [0, 1, 2] := by
  refine ⟨rfl, ?_⟩
  obtain ⟨s2, out, hrun, hwf2⟩ := main_step_wf initial_session
    (.book_flight "P54321" "FL123" "3C" "B789") initial_session_wf
  have heq := itinerary_and_active_bookings_agree.2.2.1 initial_session _ s2 out hrun rfl
  have hm : (main_step initial_session (.book_flight "P54321" "FL123" "3C" "B789")).map
      (fun r => r.1.bookings) = .ok [0, 1, 2] := rfl
  rw [hrun] at hm
  have hb : s2.bookings = [0, 1, 2] := by
    simp only [Except.map] at hm
    injection hm
  obtain ⟨s3, out3, hrun3, _⟩ := main_step_wf s2 .notify_passengers hwf2
  have h3 := itinerary_and_active_bookings_agree.2.2.2.2.2 s2 .notify_passengers s3 out3 hrun3
    (fun _ _ _ _ hx => by cases hx) (fun _ hx => by cases hx)
  refine ⟨s2, out, hrun, heq, hb, s3, out3, hrun3, ?_, ?_⟩
  · rw [h3.1, heq, hb]
  · rw [h3.2, hb]

end FlightSystem
